import Mathlib

/-!
Verification development for the media-processing worker repository.

The Python source is shallowly embedded: every external effect (SoX or FFmpeg
invocation, file-system probe, object-store call) is a field of an explicit
environment record returning `Except PyExc _`, so an environment value fixes
the outcome of every external call and the embedded functions are ordinary
computable Lean functions.  Each embedded definition is translated directly
from the corresponding Python function and keeps its name.
-/

namespace Media

/-- Python exception values that the embedded code can raise or catch.
`str(e)` is modelled by `PyExc.msg`. -/
inductive PyExc where
  | fileNotFound (m : String)
  | calledProcessError (m : String)
  | clientError (m : String)
  | noCredentials (m : String)
  | exc (m : String)
deriving Repr, DecidableEq

/-- Model of Python `str(e)` for the exceptions above. -/
def PyExc.msg : PyExc → String
  | .fileNotFound m => m
  | .calledProcessError m => m
  | .clientError m => m
  | .noCredentials m => m
  | .exc m => m

/-- Identifiers for the external tool invocations performed by the audio and
video operations; the list of `ToolCall`s returned by an operation is its
trace of tool invocations, in order. -/
inductive ToolCall where
  | soxNoiseprof
  | soxNoisered
  | ffmpegHighLowPass
  | ffmpegLoudnorm
  | ffmpegVolume
  | ffmpegAtempo
  | ffmpegAsetrate
  | ffmpegTrim
  | ffmpegConcat
  | ffmpegExtractAudio
  | ffmpegConvert
  | ffmpegScale
  | ffmpegTrimVideo
  | ffmpegSubtitles
deriving Repr, DecidableEq

/-- Metadata extracted by `ffmpeg.probe` in `_get_audio_info` / `_get_file_info`
(the probe itself is an external capability; its parsed fields are abstract
data here). -/
structure ProbeData where
  duration : Rat
  size : Nat
  format : String
  bitrate : Nat
  codec : Option String := none
  sample_rate : Option Nat := none
  channels : Option Nat := none
  width : Option Nat := none
  height : Option Nat := none
deriving Repr, DecidableEq

/-- Result of `_get_audio_info` / `_get_file_info`: either the probed metadata
or the `{'error': str(e)}` dictionary produced when probing raises. -/
inductive FileInfo where
  | info (data : ProbeData)
  | probeError (msg : String)
deriving Repr, DecidableEq

/-- The dictionary returned by `process_audio` / `process_video`: either the
completed payload (task id, final output path, the operation list echoed back,
probed file info) or the failed payload (task id, `str(e)`). -/
inductive ProcessResult where
  | completed (task_id : String) (output_path : String)
      (operations_performed : List String) (file_info : FileInfo)
  | failed (task_id : String) (error : String)
deriving Repr, DecidableEq

/-- One observable event of the pipeline loop in `process_audio` /
`process_video`: either a defined operation was invoked at a step (with the
input it consumed, the deterministic output path computed for the step and the
value it returned or the exception it raised), or an unknown operation name was
skipped with a logged warning. -/
inductive TraceEntry where
  | invoked (op : String) (step : Nat) (input : String) (output_path : String)
      (result : Except PyExc String)
  | warnedUnknown (op : String)
deriving Repr

/-- Model of two-argument `os.path.join` for POSIX paths. -/
def osPathJoin (a b : String) : String :=
  if b.startsWith "/" then b
  else if a = "" then b
  else if a.endsWith "/" then a ++ b
  else a ++ "/" ++ b

/-- The shared shape of the `for i, operation in enumerate(operations)` loop of
`AudioProcessor.process_audio` and `VideoProcessor.process_video`:
`dispatch` is the if/elif chain mapping a defined operation name to its
implementation (`none` on the final `else` branch), `getOut` is
`self._get_output_path(task_id, operation, i)`.  A defined operation's returned
path becomes the next step's input; an unknown name logs a warning and
`continue`s without touching `current_input`; a raised exception aborts the
loop.  Returns the loop outcome together with the trace of events. -/
def runPipeline (dispatch : String → Option (String → String → Except PyExc String × List ToolCall))
    (getOut : String → Nat → String) :
    List String → Nat → String → Except PyExc String × List TraceEntry
  | [], _, cur => (.ok cur, [])
  | op :: rest, i, cur =>
    match dispatch op with
    | none =>
        let r := runPipeline dispatch getOut rest (i + 1) cur
        (r.1, .warnedUnknown op :: r.2)
    | some f =>
        let out := getOut op i
        match f cur out with
        | (.ok newCur, _) =>
            let r := runPipeline dispatch getOut rest (i + 1) newCur
            (r.1, .invoked op i cur out (.ok newCur) :: r.2)
        | (.error e, _) => (.error e, [.invoked op i cur out (.error e)])

namespace AudioProcessor

/-- The parameter dictionary of `AudioProcessor`, restricted to the keys the
audio operations read (`params.get(key, default)` is `field.getD default`). -/
structure Segment where
  start : Option Rat := none
  duration : Option Rat := none
deriving Repr, DecidableEq

structure Params where
  noise_factor : Option Rat := none
  target_level : Option Rat := none
  volume_level : Option Rat := none
  speed_factor : Option Rat := none
  preserve_pitch : Option Bool := none
  segments : Option (List Segment) := none
deriving Repr

/-- Environment of external effects used by `AudioProcessor`: the outcome of
every SoX/FFmpeg invocation, the `os.path.exists` probe and `ffmpeg.probe`. -/
structure AudioEnv where
  existsFile : String → Bool
  soxNoiseprof : String → String → Except PyExc Unit
  soxNoisered : String → String → String → Rat → Except PyExc Unit
  ffmpegHighLowPass : String → String → Except PyExc Unit
  ffmpegLoudnorm : String → String → Except PyExc Unit
  ffmpegVolume : String → String → Rat → Except PyExc Unit
  ffmpegAtempo : String → String → Rat → Except PyExc Unit
  ffmpegAsetrate : String → String → Rat → Except PyExc Unit
  ffmpegTrim : String → String → Rat → Rat → Except PyExc Unit
  ffmpegConcat : List String → String → Except PyExc Unit
  probe : String → Except PyExc ProbeData

/-- The `try` body of `_noise_reduction`: build the noise profile path, run the
two SoX commands; an exception of either propagates. -/
def noise_reduction_body (env : AudioEnv) (params : Params) (input_path output_path : String) :
    Except PyExc Unit × List ToolCall :=
  let noise_profile := output_path.replace ".wav" "_noise.prof"
  let noise_factor := params.noise_factor.getD (21 / 100 : Rat)
  match env.soxNoiseprof input_path noise_profile with
  | .error e => (.error e, [.soxNoiseprof])
  | .ok _ =>
      match env.soxNoisered input_path output_path noise_profile noise_factor with
      | .error e => (.error e, [.soxNoiseprof, .soxNoisered])
      | .ok _ => (.ok (), [.soxNoiseprof, .soxNoisered])

/-- `_fallback_noise_reduction`: FFmpeg highpass/lowpass filtering; its own
`except` clause just logs and re-raises. -/
def fallback_noise_reduction (env : AudioEnv) (input_path output_path : String) :
    Except PyExc String × List ToolCall :=
  match env.ffmpegHighLowPass input_path output_path with
  | .ok _ => (.ok output_path, [.ffmpegHighLowPass])
  | .error e => (.error e, [.ffmpegHighLowPass])

/-- `_noise_reduction`: runs the SoX body; `except subprocess.CalledProcessError`
falls back to `_fallback_noise_reduction`; any other exception re-raises. -/
def noise_reduction (env : AudioEnv) (params : Params) (input_path output_path : String) :
    Except PyExc String × List ToolCall :=
  match noise_reduction_body env params input_path output_path with
  | (.ok _, calls) => (.ok output_path, calls)
  | (.error (.calledProcessError _), calls) =>
      let fb := fallback_noise_reduction env input_path output_path
      (fb.1, calls ++ fb.2)
  | (.error e, calls) => (.error e, calls)

/-- `_fallback_normalize`: FFmpeg volume filter at `volume_level`
(default 1.5); its `except` clause logs and re-raises. -/
def fallback_normalize (env : AudioEnv) (params : Params) (input_path output_path : String) :
    Except PyExc String × List ToolCall :=
  let volume_level := params.volume_level.getD (3 / 2 : Rat)
  match env.ffmpegVolume input_path output_path volume_level with
  | .ok _ => (.ok output_path, [.ffmpegVolume])
  | .error e => (.error e, [.ffmpegVolume])

/-- `_normalize_audio`: FFmpeg loudnorm; `except Exception` falls back to
`_fallback_normalize`.  (`target_level` is read but unused by the primary
path, as in the source.) -/
def normalize_audio (env : AudioEnv) (params : Params) (input_path output_path : String) :
    Except PyExc String × List ToolCall :=
  let _target_level := params.target_level.getD (-3 : Rat)
  match env.ffmpegLoudnorm input_path output_path with
  | .ok _ => (.ok output_path, [.ffmpegLoudnorm])
  | .error _ =>
      let fb := fallback_normalize env params input_path output_path
      (fb.1, .ffmpegLoudnorm :: fb.2)

/-- `_change_speed`: atempo (pitch-preserving, the default) or
asetrate/aresample; exceptions re-raise. -/
def change_speed (env : AudioEnv) (params : Params) (input_path output_path : String) :
    Except PyExc String × List ToolCall :=
  let speed_factor := params.speed_factor.getD 1
  let preserve_pitch := params.preserve_pitch.getD true
  if preserve_pitch then
    match env.ffmpegAtempo input_path output_path speed_factor with
    | .ok _ => (.ok output_path, [.ffmpegAtempo])
    | .error e => (.error e, [.ffmpegAtempo])
  else
    match env.ffmpegAsetrate input_path output_path speed_factor with
    | .ok _ => (.ok output_path, [.ffmpegAsetrate])
    | .error e => (.error e, [.ffmpegAsetrate])

/-- The loop of the multi-segment branch of `_extract_segments`: extract each
segment to `output.replace('.wav', f'_segment_{i}.wav')`, collecting the
segment file paths in order; an exception aborts. -/
def extract_segment_files (env : AudioEnv) (input_path output_path : String) :
    List Segment → Nat → Except PyExc (List String) × List ToolCall
  | [], _ => (.ok [], [])
  | seg :: rest, i =>
      let segment_path := output_path.replace ".wav" ("_segment_" ++ toString i ++ ".wav")
      match env.ffmpegTrim input_path segment_path (seg.start.getD 0) (seg.duration.getD 30) with
      | .error e => (.error e, [.ffmpegTrim])
      | .ok _ =>
          let r := extract_segment_files env input_path output_path rest (i + 1)
          match r.1 with
          | .error e => (.error e, .ffmpegTrim :: r.2)
          | .ok files => (.ok (segment_path :: files), .ffmpegTrim :: r.2)

/-- `_extract_segments`: single segment trims directly to the output;
multiple segments are extracted in order and concatenated. -/
def extract_segments (env : AudioEnv) (params : Params) (input_path output_path : String) :
    Except PyExc String × List ToolCall :=
  let segments := params.segments.getD [{ start := some 0, duration := some 30 }]
  match segments with
  | [segment] =>
      match env.ffmpegTrim input_path output_path (segment.start.getD 0) (segment.duration.getD 30) with
      | .ok _ => (.ok output_path, [.ffmpegTrim])
      | .error e => (.error e, [.ffmpegTrim])
  | _ =>
      match extract_segment_files env input_path output_path segments 0 with
      | (.error e, calls) => (.error e, calls)
      | (.ok segment_files, calls) =>
          match env.ffmpegConcat segment_files output_path with
          | .ok _ => (.ok output_path, calls ++ [.ffmpegConcat])
          | .error e => (.error e, calls ++ [.ffmpegConcat])

/-- `AudioProcessor._get_output_path`: `os.path.join(self.output_dir,
f"{task_id}_{operation}_{step}.wav")`. -/
def get_output_path (output_dir task_id operation : String) (step : Nat) : String :=
  osPathJoin output_dir (task_id ++ "_" ++ operation ++ "_" ++ toString step ++ ".wav")

/-- The if/elif chain of `process_audio` mapping operation names to the
operation implementation; `none` is the `else: logger.warning(...)` branch. -/
def audioDispatch (env : AudioEnv) (params : Params) (op : String) :
    Option (String → String → Except PyExc String × List ToolCall) :=
  if op = "noise_reduction" then some (noise_reduction env params)
  else if op = "normalize_audio" then some (normalize_audio env params)
  else if op = "change_speed" then some (change_speed env params)
  else if op = "extract_segments" then some (extract_segments env params)
  else none

/-- `AudioProcessor._get_audio_info`: probe the file, catching any exception
into an `{'error': str(e)}` value. -/
def get_audio_info (env : AudioEnv) (file_path : String) : FileInfo :=
  match env.probe file_path with
  | .ok d => .info d
  | .error e => .probeError e.msg

/-- `AudioProcessor.process_audio`: check the input exists, run the operation
loop threading `current_input`, probe the final file and return the completed
payload; any uncaught exception is caught by the outer `except` into the
failed payload.  Also returns the loop's event trace. -/
def process_audio (env : AudioEnv) (output_dir input_path task_id : String)
    (operations : List String) (parameters : Params) :
    ProcessResult × List TraceEntry :=
  if env.existsFile input_path then
    match runPipeline (audioDispatch env parameters)
        (fun op i => get_output_path output_dir task_id op i) operations 0 input_path with
    | (.ok current_input, tr) =>
        (.completed task_id current_input operations (get_audio_info env current_input), tr)
    | (.error e, tr) => (.failed task_id e.msg, tr)
  else
    (.failed task_id ("Input file not found: " ++ input_path), [])

end AudioProcessor

/-- Drop the last dot-suffix of a file name, as `pathlib` does: the suffix
starts at the last `'.'` provided that dot is not the leading character. -/
def stripLastSuffix (name : String) : String :=
  let cs := name.toList
  match cs.reverse.findIdx? (· = '.') with
  | none => name
  | some k =>
      let pos := cs.length - 1 - k
      if pos = 0 then name else String.mk (cs.take pos)

/-- Model of `pathlib.Path(p).with_suffix(newSuffix)`: replace the last
dot-suffix of the final path component. -/
def pathWithSuffix (p newSuffix : String) : String :=
  let comps := p.splitOn "/"
  let name := comps.getLastD ""
  String.intercalate "/" (comps.dropLast ++ [stripLastSuffix name ++ newSuffix])

namespace VideoProcessor

/-- The parameter dictionary of `VideoProcessor`, restricted to the keys the
video operations read. -/
structure Params where
  audio_format : Option String := none
  audio_quality : Option String := none
  target_format : Option String := none
  video_codec : Option String := none
  audio_codec : Option String := none
  width : Option Int := none
  height : Option Int := none
  start_time : Option Rat := none
  duration : Option Rat := none
  subtitle_path : Option String := none
deriving Repr

/-- Environment of external effects used by `VideoProcessor`. -/
structure VideoEnv where
  existsFile : String → Bool
  ffmpegExtractAudio : String → String → String → String → Except PyExc Unit
  ffmpegConvert : String → String → String → String → Except PyExc Unit
  ffmpegScale : String → String → Int → Int → Except PyExc Unit
  ffmpegTrimVideo : String → String → Rat → Rat → Except PyExc Unit
  ffmpegSubtitles : String → String → String → Except PyExc Unit
  probe : String → Except PyExc ProbeData

/-- `_extract_audio`: rewrite the output extension to the requested audio
format, run FFmpeg with the matching codec, return the rewritten path. -/
def extract_audio (env : VideoEnv) (params : Params) (input_path output_path : String) :
    Except PyExc String × List ToolCall :=
  let audio_format := params.audio_format.getD "mp3"
  let audio_quality := params.audio_quality.getD "192k"
  let output_path := output_path.replace ".mp4" ("." ++ audio_format)
  let acodec := if audio_format = "mp3" then "libmp3lame" else "aac"
  match env.ffmpegExtractAudio input_path output_path acodec audio_quality with
  | .ok _ => (.ok output_path, [.ffmpegExtractAudio])
  | .error e => (.error e, [.ffmpegExtractAudio])

/-- `_convert_format`: rewrite the output suffix to the target format via
`Path.with_suffix`, transcode with the requested codecs. -/
def convert_format (env : VideoEnv) (params : Params) (input_path output_path : String) :
    Except PyExc String × List ToolCall :=
  let target_format := params.target_format.getD "mp4"
  let video_codec := params.video_codec.getD "libx264"
  let audio_codec := params.audio_codec.getD "aac"
  let output_path := pathWithSuffix output_path ("." ++ target_format)
  match env.ffmpegConvert input_path output_path video_codec audio_codec with
  | .ok _ => (.ok output_path, [.ffmpegConvert])
  | .error e => (.error e, [.ffmpegConvert])

/-- `_resize_video`: FFmpeg scale filter. -/
def resize_video (env : VideoEnv) (params : Params) (input_path output_path : String) :
    Except PyExc String × List ToolCall :=
  let width := params.width.getD 1280
  let height := params.height.getD 720
  match env.ffmpegScale input_path output_path width height with
  | .ok _ => (.ok output_path, [.ffmpegScale])
  | .error e => (.error e, [.ffmpegScale])

/-- `_trim_video`: FFmpeg input with start/duration. -/
def trim_video (env : VideoEnv) (params : Params) (input_path output_path : String) :
    Except PyExc String × List ToolCall :=
  let start_time := params.start_time.getD 0
  let duration := params.duration.getD 30
  match env.ffmpegTrimVideo input_path output_path start_time duration with
  | .ok _ => (.ok output_path, [.ffmpegTrimVideo])
  | .error e => (.error e, [.ffmpegTrimVideo])

/-- `_add_subtitles`: if the subtitle path is missing or does not exist, skip
and return the input unchanged; otherwise burn in subtitles. -/
def add_subtitles (env : VideoEnv) (params : Params) (input_path output_path : String) :
    Except PyExc String × List ToolCall :=
  match params.subtitle_path with
  | none => (.ok input_path, [])
  | some subtitle_path =>
      if env.existsFile subtitle_path then
        match env.ffmpegSubtitles input_path output_path subtitle_path with
        | .ok _ => (.ok output_path, [.ffmpegSubtitles])
        | .error e => (.error e, [.ffmpegSubtitles])
      else (.ok input_path, [])

/-- `VideoProcessor._get_output_path`: `os.path.join(self.output_dir,
f"{task_id}_{operation}_{step}.mp4")`. -/
def get_output_path (output_dir task_id operation : String) (step : Nat) : String :=
  osPathJoin output_dir (task_id ++ "_" ++ operation ++ "_" ++ toString step ++ ".mp4")

/-- The if/elif chain of `process_video` mapping operation names to the
operation implementation; `none` is the warning branch. -/
def videoDispatch (env : VideoEnv) (params : Params) (op : String) :
    Option (String → String → Except PyExc String × List ToolCall) :=
  if op = "extract_audio" then some (extract_audio env params)
  else if op = "convert_format" then some (convert_format env params)
  else if op = "resize_video" then some (resize_video env params)
  else if op = "trim_video" then some (trim_video env params)
  else if op = "add_subtitles" then some (add_subtitles env params)
  else none

/-- `VideoProcessor._get_file_info`: probe the file, catching any exception
into an `{'error': str(e)}` value. -/
def get_file_info (env : VideoEnv) (file_path : String) : FileInfo :=
  match env.probe file_path with
  | .ok d => .info d
  | .error e => .probeError e.msg

/-- `VideoProcessor.process_video`: same loop shape as `process_audio`. -/
def process_video (env : VideoEnv) (output_dir input_path task_id : String)
    (operations : List String) (parameters : Params) :
    ProcessResult × List TraceEntry :=
  if env.existsFile input_path then
    match runPipeline (videoDispatch env parameters)
        (fun op i => get_output_path output_dir task_id op i) operations 0 input_path with
    | (.ok current_input, tr) =>
        (.completed task_id current_input operations (get_file_info env current_input), tr)
    | (.error e, tr) => (.failed task_id e.msg, tr)
  else
    (.failed task_id ("Input file not found: " ++ input_path), [])

end VideoProcessor

/-! ### Generic facts about the pipeline loop -/

/-- Spec-side description of a pipeline run in which every invoked operation
succeeds, following the spec's words: for each step in order, compute the
deterministic output path from (task id, operation name, step index); if the
step's name is a defined operation, invoke it exactly once with the current
input and let the step's returned path (`ret`) become the next step's input;
if it is not defined, warn and leave the current input untouched.  Returns the
expected event list and the final output path. -/
def specChain (defined : String → Bool) (getOut : String → Nat → String)
    (ret : String → String → String → String) :
    List String → Nat → String → List TraceEntry × String
  | [], _, cur => ([], cur)
  | op :: rest, i, cur =>
      if defined op then
        let out := getOut op i
        let nxt := ret op cur out
        let r := specChain defined getOut ret rest (i + 1) nxt
        (.invoked op i cur out (.ok nxt) :: r.1, r.2)
      else
        let r := specChain defined getOut ret rest (i + 1) cur
        (.warnedUnknown op :: r.1, r.2)

theorem runPipeline_unknown (dispatch : String → Option (String → String → Except PyExc String × List ToolCall))
    (getOut : String → Nat → String) (op : String) (rest : List String) (i : Nat) (cur : String)
    (h : dispatch op = none) :
    runPipeline dispatch getOut (op :: rest) i cur =
      ((runPipeline dispatch getOut rest (i + 1) cur).1,
       .warnedUnknown op :: (runPipeline dispatch getOut rest (i + 1) cur).2) := by
  simp [runPipeline, h]

theorem runPipeline_cons_ok (dispatch : String → Option (String → String → Except PyExc String × List ToolCall))
    (getOut : String → Nat → String) (op : String) (f : String → String → Except PyExc String × List ToolCall)
    (rest : List String) (i : Nat) (cur newCur : String)
    (hf : dispatch op = some f) (hr : (f cur (getOut op i)).1 = .ok newCur) :
    runPipeline dispatch getOut (op :: rest) i cur =
      ((runPipeline dispatch getOut rest (i + 1) newCur).1,
       .invoked op i cur (getOut op i) (.ok newCur) ::
         (runPipeline dispatch getOut rest (i + 1) newCur).2) := by
  rcases hfc : f cur (getOut op i) with ⟨r, cs⟩
  rw [hfc] at hr
  simp only at hr
  subst hr
  simp [runPipeline, hf, hfc]

theorem runPipeline_cons_error (dispatch : String → Option (String → String → Except PyExc String × List ToolCall))
    (getOut : String → Nat → String) (op : String) (f : String → String → Except PyExc String × List ToolCall)
    (rest : List String) (i : Nat) (cur : String) (e : PyExc)
    (hf : dispatch op = some f) (hr : (f cur (getOut op i)).1 = .error e) :
    runPipeline dispatch getOut (op :: rest) i cur =
      (.error e, [.invoked op i cur (getOut op i) (.error e)]) := by
  rcases hfc : f cur (getOut op i) with ⟨r, cs⟩
  rw [hfc] at hr
  simp only at hr
  subst hr
  simp [runPipeline, hf, hfc]

theorem runPipeline_append (dispatch : String → Option (String → String → Except PyExc String × List ToolCall))
    (getOut : String → Nat → String) :
    ∀ (l₁ : List String) (l₂ : List String) (i : Nat) (cur mid : String) (t : List TraceEntry),
      runPipeline dispatch getOut l₁ i cur = (.ok mid, t) →
      runPipeline dispatch getOut (l₁ ++ l₂) i cur =
        ((runPipeline dispatch getOut l₂ (i + l₁.length) mid).1,
         t ++ (runPipeline dispatch getOut l₂ (i + l₁.length) mid).2)
  | [], l₂, i, cur, mid, t, h => by
      simp only [runPipeline, Prod.mk.injEq, Except.ok.injEq] at h
      obtain ⟨rfl, h2⟩ := h
      subst h2
      simp
  | op :: rest, l₂, i, cur, mid, t, h => by
      match hd : dispatch op with
      | none =>
          rw [runPipeline_unknown dispatch getOut op rest i cur hd] at h
          rcases hr : runPipeline dispatch getOut rest (i + 1) cur with ⟨r1, t1⟩
          rw [hr] at h
          simp only [Prod.mk.injEq] at h
          obtain ⟨h1, h2⟩ := h
          subst h1
          have hrec := runPipeline_append dispatch getOut rest l₂ (i + 1) cur mid t1 hr
          have : runPipeline dispatch getOut ((op :: rest) ++ l₂) i cur =
              ((runPipeline dispatch getOut (rest ++ l₂) (i + 1) cur).1,
               .warnedUnknown op :: (runPipeline dispatch getOut (rest ++ l₂) (i + 1) cur).2) := by
            simpa using runPipeline_unknown dispatch getOut op (rest ++ l₂) i cur hd
          rw [this, hrec]
          subst h2
          simp [List.length_cons, Nat.add_comm, Nat.add_assoc, Nat.add_left_comm]
      | some f =>
          rcases hfc : f cur (getOut op i) with ⟨r, cs⟩
          match r, hfc with
          | .ok newCur, hfc =>
              rw [runPipeline_cons_ok dispatch getOut op f rest i cur newCur hd (by rw [hfc])] at h
              rcases hr : runPipeline dispatch getOut rest (i + 1) newCur with ⟨r1, t1⟩
              rw [hr] at h
              simp only [Prod.mk.injEq] at h
              obtain ⟨h1, h2⟩ := h
              subst h1
              have hrec := runPipeline_append dispatch getOut rest l₂ (i + 1) newCur mid t1 hr
              have hstep : runPipeline dispatch getOut ((op :: rest) ++ l₂) i cur =
                  ((runPipeline dispatch getOut (rest ++ l₂) (i + 1) newCur).1,
                   .invoked op i cur (getOut op i) (.ok newCur) ::
                     (runPipeline dispatch getOut (rest ++ l₂) (i + 1) newCur).2) := by
                simpa using runPipeline_cons_ok dispatch getOut op f (rest ++ l₂) i cur newCur hd
                  (by rw [hfc])
              rw [hstep, hrec]
              subst h2
              simp [List.length_cons, Nat.add_comm, Nat.add_assoc, Nat.add_left_comm]
          | .error e, hfc =>
              rw [runPipeline_cons_error dispatch getOut op f rest i cur e hd (by rw [hfc])] at h
              exact absurd (congrArg Prod.fst h) (by simp)

namespace AudioProcessor

/-- All external tool invocations of the audio environment succeed. -/
structure AllOk (env : AudioEnv) : Prop where
  noiseprof : ∀ a b, env.soxNoiseprof a b = .ok ()
  noisered : ∀ a b c r, env.soxNoisered a b c r = .ok ()
  highlow : ∀ a b, env.ffmpegHighLowPass a b = .ok ()
  loudnorm : ∀ a b, env.ffmpegLoudnorm a b = .ok ()
  volume : ∀ a b r, env.ffmpegVolume a b r = .ok ()
  atempo : ∀ a b r, env.ffmpegAtempo a b r = .ok ()
  asetrate : ∀ a b r, env.ffmpegAsetrate a b r = .ok ()
  trim : ∀ a b r s, env.ffmpegTrim a b r s = .ok ()
  concat : ∀ l b, env.ffmpegConcat l b = .ok ()

theorem noise_reduction_ok {env : AudioEnv} (h : AllOk env) (params : Params)
    (cur out : String) : (noise_reduction env params cur out).1 = .ok out := by
  simp [noise_reduction, noise_reduction_body, h.noiseprof, h.noisered]

theorem normalize_audio_ok {env : AudioEnv} (h : AllOk env) (params : Params)
    (cur out : String) : (normalize_audio env params cur out).1 = .ok out := by
  simp [normalize_audio, h.loudnorm]

theorem change_speed_ok {env : AudioEnv} (h : AllOk env) (params : Params)
    (cur out : String) : (change_speed env params cur out).1 = .ok out := by
  unfold change_speed
  rcases params.preserve_pitch.getD true with _ | _ <;>
    simp [h.atempo, h.asetrate]

theorem extract_segment_files_ok {env : AudioEnv} (h : AllOk env) (input out : String) :
    ∀ (segs : List Segment) (i : Nat),
      ∃ fs, (extract_segment_files env input out segs i).1 = .ok fs
  | [], _ => ⟨[], rfl⟩
  | seg :: rest, i => by
      obtain ⟨fs, hfs⟩ := extract_segment_files_ok h input out rest (i + 1)
      refine ⟨(out.replace ".wav" ("_segment_" ++ toString i ++ ".wav")) :: fs, ?_⟩
      rcases hr : extract_segment_files env input out rest (i + 1) with ⟨r1, c1⟩
      rw [hr] at hfs
      simp only at hfs
      subst hfs
      simp [extract_segment_files, h.trim, hr]

theorem extract_segments_ok {env : AudioEnv} (h : AllOk env) (params : Params)
    (cur out : String) : (extract_segments env params cur out).1 = .ok out := by
  unfold extract_segments
  rcases params.segments.getD [{ start := some 0, duration := some 30 }] with _ | ⟨seg, _ | ⟨seg2, rest⟩⟩
  · obtain ⟨fs, hfs⟩ := extract_segment_files_ok h cur out [] 0
    rcases hr : extract_segment_files env cur out [] 0 with ⟨r1, c1⟩
    rw [hr] at hfs
    simp only at hfs
    subst hfs
    simp [hr, h.concat]
  · simp [h.trim]
  · obtain ⟨fs, hfs⟩ := extract_segment_files_ok h cur out (seg :: seg2 :: rest) 0
    rcases hr : extract_segment_files env cur out (seg :: seg2 :: rest) 0 with ⟨r1, c1⟩
    rw [hr] at hfs
    simp only at hfs
    subst hfs
    simp [hr, h.concat]

/-- Under `AllOk`, every defined audio operation succeeds and returns exactly
the output path it was handed. -/
theorem audioDispatch_ok {env : AudioEnv} (h : AllOk env) (params : Params) :
    ∀ op f, audioDispatch env params op = some f →
      ∀ cur out, (f cur out).1 = .ok ((fun _ _ o => o : String → String → String → String) op cur out) := by
  intro op f hf cur out
  unfold audioDispatch at hf
  split_ifs at hf <;> injection hf with hf <;> subst hf
  · exact noise_reduction_ok h params cur out
  · exact normalize_audio_ok h params cur out
  · exact change_speed_ok h params cur out
  · exact extract_segments_ok h params cur out

theorem audioDispatch_defined (env : AudioEnv) (params : Params) (op : String)
    (h : op ∈ (["noise_reduction", "normalize_audio", "change_speed",
      "extract_segments"] : List String)) :
    (audioDispatch env params op).isSome = true := by
  simp only [List.mem_cons, List.not_mem_nil, or_false] at h
  rcases h with rfl | rfl | rfl | rfl <;> simp [audioDispatch]

theorem audioDispatch_none (env : AudioEnv) (params : Params) (op : String)
    (h : op ∉ (["noise_reduction", "normalize_audio", "change_speed",
      "extract_segments"] : List String)) :
    audioDispatch env params op = none := by
  simp only [List.mem_cons, List.not_mem_nil, or_false, not_or] at h
  obtain ⟨h1, h2, h3, h4⟩ := h
  simp [audioDispatch, h1, h2, h3, h4]

/-- The audio dispatch succeeds exactly on the four defined operation names. -/
theorem audioDispatch_isSome (env : AudioEnv) (params : Params) (op : String) :
    (audioDispatch env params op).isSome =
      decide (op ∈ (["noise_reduction", "normalize_audio", "change_speed",
        "extract_segments"] : List String)) := by
  by_cases h : op ∈ (["noise_reduction", "normalize_audio", "change_speed",
      "extract_segments"] : List String)
  · rw [audioDispatch_defined env params op h]
    simp [h]
  · rw [audioDispatch_none env params op h]
    simp [h]

end AudioProcessor

namespace VideoProcessor

/-- All external tool invocations of the video environment succeed. -/
structure AllOk (env : VideoEnv) : Prop where
  extractAudio : ∀ a b c d, env.ffmpegExtractAudio a b c d = .ok ()
  convert : ∀ a b c d, env.ffmpegConvert a b c d = .ok ()
  scale : ∀ a b w hgt, env.ffmpegScale a b w hgt = .ok ()
  trim : ∀ a b r s, env.ffmpegTrimVideo a b r s = .ok ()
  subtitles : ∀ a b c, env.ffmpegSubtitles a b c = .ok ()

/-- The path a defined video operation returns on success, as a function of the
operation name, its current input and the computed step output path (extract
audio and convert format rewrite the extension; add subtitles returns the
input unchanged when the subtitle file is absent). -/
def stepReturn (env : VideoEnv) (params : Params) (op cur out : String) : String :=
  if op = "extract_audio" then out.replace ".mp4" ("." ++ params.audio_format.getD "mp3")
  else if op = "convert_format" then pathWithSuffix out ("." ++ params.target_format.getD "mp4")
  else if op = "add_subtitles" then
    match params.subtitle_path with
    | none => cur
    | some sp => if env.existsFile sp then out else cur
  else out

theorem videoDispatch_ok {env : VideoEnv} (h : AllOk env) (params : Params) :
    ∀ op f, videoDispatch env params op = some f →
      ∀ cur out, (f cur out).1 = .ok (stepReturn env params op cur out) := by
  intro op f hf cur out
  unfold videoDispatch at hf
  split_ifs at hf with h1 h2 h3 h4 h5 <;> injection hf with hf <;> subst hf
  · subst h1; simp [extract_audio, stepReturn, h.extractAudio]
  · subst h2; simp [convert_format, stepReturn, h.convert, h1]
  · subst h3; simp [resize_video, stepReturn, h.scale, h1, h2]
  · subst h4; simp [trim_video, stepReturn, h.trim, h1, h2, h3]
  · subst h5
    simp only [add_subtitles, stepReturn, h1, h2, h3, h4, if_false, if_true, reduceIte]
    rcases params.subtitle_path with _ | sp
    · simp
    · simp only
      rcases hex : env.existsFile sp with _ | _ <;> simp [hex, h.subtitles]

theorem videoDispatch_defined (env : VideoEnv) (params : Params) (op : String)
    (h : op ∈ (["extract_audio", "convert_format", "resize_video", "trim_video",
      "add_subtitles"] : List String)) :
    (videoDispatch env params op).isSome = true := by
  simp only [List.mem_cons, List.not_mem_nil, or_false] at h
  rcases h with rfl | rfl | rfl | rfl | rfl <;> simp [videoDispatch]

theorem videoDispatch_none (env : VideoEnv) (params : Params) (op : String)
    (h : op ∉ (["extract_audio", "convert_format", "resize_video", "trim_video",
      "add_subtitles"] : List String)) :
    videoDispatch env params op = none := by
  simp only [List.mem_cons, List.not_mem_nil, or_false, not_or] at h
  obtain ⟨h1, h2, h3, h4, h5⟩ := h
  simp [videoDispatch, h1, h2, h3, h4, h5]

/-- The video dispatch succeeds exactly on the five defined operation names. -/
theorem videoDispatch_isSome (env : VideoEnv) (params : Params) (op : String) :
    (videoDispatch env params op).isSome =
      decide (op ∈ (["extract_audio", "convert_format", "resize_video", "trim_video",
        "add_subtitles"] : List String)) := by
  by_cases h : op ∈ (["extract_audio", "convert_format", "resize_video", "trim_video",
      "add_subtitles"] : List String)
  · rw [videoDispatch_defined env params op h]
    simp [h]
  · rw [videoDispatch_none env params op h]
    simp [h]

end VideoProcessor

theorem runPipeline_all_ok (dispatch : String → Option (String → String → Except PyExc String × List ToolCall))
    (getOut : String → Nat → String) (ret : String → String → String → String)
    (defined : String → Bool)
    (hdef : ∀ op, (dispatch op).isSome = defined op)
    (hret : ∀ op f, dispatch op = some f → ∀ cur out, (f cur out).1 = .ok (ret op cur out)) :
    ∀ (ops : List String) (i : Nat) (cur : String),
      runPipeline dispatch getOut ops i cur =
        (.ok (specChain defined getOut ret ops i cur).2,
         (specChain defined getOut ret ops i cur).1)
  | [], i, cur => by simp [runPipeline, specChain]
  | op :: rest, i, cur => by
      rcases hd : defined op with _ | _
      · have hnone : dispatch op = none := by
          have := hdef op
          rw [hd] at this
          exact Option.not_isSome_iff_eq_none.mp (by simp [this])
        rw [runPipeline_unknown dispatch getOut op rest i cur hnone]
        rw [runPipeline_all_ok dispatch getOut ret defined hdef hret rest (i + 1) cur]
        simp [specChain, hd]
      · obtain ⟨f, hf⟩ := Option.isSome_iff_exists.mp (by rw [hdef op, hd])
        have hr := hret op f hf cur (getOut op i)
        rw [runPipeline_cons_ok dispatch getOut op f rest i cur (ret op cur (getOut op i)) hf hr]
        rw [runPipeline_all_ok dispatch getOut ret defined hdef hret rest (i + 1)
          (ret op cur (getOut op i))]
        simp [specChain, hd]

/-! ### Concrete environments used by the claim witnesses -/

/-- An audio environment in which every external call succeeds. -/
def audioEnvOk : AudioProcessor.AudioEnv where
  existsFile := fun _ => true
  soxNoiseprof := fun _ _ => .ok ()
  soxNoisered := fun _ _ _ _ => .ok ()
  ffmpegHighLowPass := fun _ _ => .ok ()
  ffmpegLoudnorm := fun _ _ => .ok ()
  ffmpegVolume := fun _ _ _ => .ok ()
  ffmpegAtempo := fun _ _ _ => .ok ()
  ffmpegAsetrate := fun _ _ _ => .ok ()
  ffmpegTrim := fun _ _ _ _ => .ok ()
  ffmpegConcat := fun _ _ => .ok ()
  probe := fun _ => .ok { duration := 10, size := 1024, format := "wav", bitrate := 128000 }

/-- A video environment in which every external call succeeds. -/
def videoEnvOk : VideoProcessor.VideoEnv where
  existsFile := fun _ => true
  ffmpegExtractAudio := fun _ _ _ _ => .ok ()
  ffmpegConvert := fun _ _ _ _ => .ok ()
  ffmpegScale := fun _ _ _ _ => .ok ()
  ffmpegTrimVideo := fun _ _ _ _ => .ok ()
  ffmpegSubtitles := fun _ _ _ => .ok ()
  probe := fun _ => .ok { duration := 10, size := 4096, format := "mp4", bitrate := 900000 }

/-- An audio environment in which the FFmpeg loudnorm and volume filters both
fail (so `normalize_audio` fails even after its fallback), everything else
succeeds. -/
def audioEnvNormFail : AudioProcessor.AudioEnv :=
  { audioEnvOk with
    ffmpegLoudnorm := fun _ _ => .error (.exc "loudnorm failed")
    ffmpegVolume := fun _ _ _ => .error (.exc "volume failed") }

/-- A video environment in which the scale filter fails, everything else
succeeds. -/
def videoEnvScaleFail : VideoProcessor.VideoEnv :=
  { videoEnvOk with ffmpegScale := fun _ _ _ _ => .error (.exc "scale failed") }

/-! ### Claims about the pipeline executor -/

/-- Claim C1: for every operation list and valid (existing) initial input
path, when every invoked tool succeeds, the executor processes the steps in
the given order, invoking each defined operation exactly once: at step `i` it
computes the deterministic output path from (task id, operation name, step
index), invokes the operation with the current input, the step's returned
output becomes the next step's input (undefined names are warned and skipped
without touching the input, per the permissive policy); after all steps it
returns the completed payload with the final output path and the probed file
metadata.  Stated for `AudioProcessor.process_audio` and
`VideoProcessor.process_video`, with the event trace required to equal the
spec-side `specChain` description. -/
theorem C1_pipeline_processes_steps_in_order :
    (∀ (env : AudioProcessor.AudioEnv) (dir input task : String)
       (ops : List String) (params : AudioProcessor.Params),
       env.existsFile input = true → AudioProcessor.AllOk env →
       AudioProcessor.process_audio env dir input task ops params =
         (ProcessResult.completed task
            (specChain (fun op => decide (op ∈ (["noise_reduction", "normalize_audio",
                "change_speed", "extract_segments"] : List String)))
              (fun op i => AudioProcessor.get_output_path dir task op i)
              (fun _ _ o => o) ops 0 input).2 ops
            (AudioProcessor.get_audio_info env
              (specChain (fun op => decide (op ∈ (["noise_reduction", "normalize_audio",
                  "change_speed", "extract_segments"] : List String)))
                (fun op i => AudioProcessor.get_output_path dir task op i)
                (fun _ _ o => o) ops 0 input).2),
          (specChain (fun op => decide (op ∈ (["noise_reduction", "normalize_audio",
              "change_speed", "extract_segments"] : List String)))
            (fun op i => AudioProcessor.get_output_path dir task op i)
            (fun _ _ o => o) ops 0 input).1)) ∧
    (∀ (env : VideoProcessor.VideoEnv) (dir input task : String)
       (ops : List String) (params : VideoProcessor.Params),
       env.existsFile input = true → VideoProcessor.AllOk env →
       VideoProcessor.process_video env dir input task ops params =
         (ProcessResult.completed task
            (specChain (fun op => decide (op ∈ (["extract_audio", "convert_format",
                "resize_video", "trim_video", "add_subtitles"] : List String)))
              (fun op i => VideoProcessor.get_output_path dir task op i)
              (VideoProcessor.stepReturn env params) ops 0 input).2 ops
            (VideoProcessor.get_file_info env
              (specChain (fun op => decide (op ∈ (["extract_audio", "convert_format",
                  "resize_video", "trim_video", "add_subtitles"] : List String)))
                (fun op i => VideoProcessor.get_output_path dir task op i)
                (VideoProcessor.stepReturn env params) ops 0 input).2),
          (specChain (fun op => decide (op ∈ (["extract_audio", "convert_format",
              "resize_video", "trim_video", "add_subtitles"] : List String)))
            (fun op i => VideoProcessor.get_output_path dir task op i)
            (VideoProcessor.stepReturn env params) ops 0 input).1)) := by
  constructor
  · intro env dir input task ops params hex hall
    have hrun := runPipeline_all_ok (AudioProcessor.audioDispatch env params)
      (fun op i => AudioProcessor.get_output_path dir task op i) (fun _ _ o => o)
      (fun op => decide (op ∈ (["noise_reduction", "normalize_audio", "change_speed",
        "extract_segments"] : List String)))
      (AudioProcessor.audioDispatch_isSome env params)
      (AudioProcessor.audioDispatch_ok hall params) ops 0 input
    simp only [AudioProcessor.process_audio, hex, if_true]
    rw [hrun]
  · intro env dir input task ops params hex hall
    have hrun := runPipeline_all_ok (VideoProcessor.videoDispatch env params)
      (fun op i => VideoProcessor.get_output_path dir task op i)
      (VideoProcessor.stepReturn env params)
      (fun op => decide (op ∈ (["extract_audio", "convert_format", "resize_video",
        "trim_video", "add_subtitles"] : List String)))
      (VideoProcessor.videoDispatch_isSome env params)
      (VideoProcessor.videoDispatch_ok hall params) ops 0 input
    simp only [VideoProcessor.process_video, hex, if_true]
    rw [hrun]

theorem C1_witness :
    (AudioProcessor.process_audio audioEnvOk "./processed" "in.wav" "t1"
        ["noise_reduction", "bogus_op", "extract_segments"] {} =
      (ProcessResult.completed "t1"
          (specChain (fun op => decide (op ∈ (["noise_reduction", "normalize_audio",
              "change_speed", "extract_segments"] : List String)))
            (fun op i => AudioProcessor.get_output_path "./processed" "t1" op i)
            (fun _ _ o => o) ["noise_reduction", "bogus_op", "extract_segments"] 0 "in.wav").2
          ["noise_reduction", "bogus_op", "extract_segments"]
          (AudioProcessor.get_audio_info audioEnvOk
            (specChain (fun op => decide (op ∈ (["noise_reduction", "normalize_audio",
                "change_speed", "extract_segments"] : List String)))
              (fun op i => AudioProcessor.get_output_path "./processed" "t1" op i)
              (fun _ _ o => o) ["noise_reduction", "bogus_op", "extract_segments"] 0 "in.wav").2),
        (specChain (fun op => decide (op ∈ (["noise_reduction", "normalize_audio",
            "change_speed", "extract_segments"] : List String)))
          (fun op i => AudioProcessor.get_output_path "./processed" "t1" op i)
          (fun _ _ o => o) ["noise_reduction", "bogus_op", "extract_segments"] 0 "in.wav").1)) ∧
    (VideoProcessor.process_video videoEnvOk "./processed" "in.mp4" "t2"
        ["resize_video", "trim_video"] {} =
      (ProcessResult.completed "t2"
          (specChain (fun op => decide (op ∈ (["extract_audio", "convert_format",
              "resize_video", "trim_video", "add_subtitles"] : List String)))
            (fun op i => VideoProcessor.get_output_path "./processed" "t2" op i)
            (VideoProcessor.stepReturn videoEnvOk {}) ["resize_video", "trim_video"] 0 "in.mp4").2
          ["resize_video", "trim_video"]
          (VideoProcessor.get_file_info videoEnvOk
            (specChain (fun op => decide (op ∈ (["extract_audio", "convert_format",
                "resize_video", "trim_video", "add_subtitles"] : List String)))
              (fun op i => VideoProcessor.get_output_path "./processed" "t2" op i)
              (VideoProcessor.stepReturn videoEnvOk {}) ["resize_video", "trim_video"] 0 "in.mp4").2),
        (specChain (fun op => decide (op ∈ (["extract_audio", "convert_format",
            "resize_video", "trim_video", "add_subtitles"] : List String)))
          (fun op i => VideoProcessor.get_output_path "./processed" "t2" op i)
          (VideoProcessor.stepReturn videoEnvOk {}) ["resize_video", "trim_video"] 0 "in.mp4").1)) :=
  ⟨C1_pipeline_processes_steps_in_order.1 audioEnvOk "./processed" "in.wav" "t1"
      ["noise_reduction", "bogus_op", "extract_segments"] {} rfl
      ⟨fun _ _ => rfl, fun _ _ _ _ => rfl, fun _ _ => rfl, fun _ _ => rfl, fun _ _ _ => rfl,
       fun _ _ _ => rfl, fun _ _ _ => rfl, fun _ _ _ _ => rfl, fun _ _ => rfl⟩,
   C1_pipeline_processes_steps_in_order.2 videoEnvOk "./processed" "in.mp4" "t2"
      ["resize_video", "trim_video"] {} rfl
      ⟨fun _ _ _ _ => rfl, fun _ _ _ _ => rfl, fun _ _ _ _ => rfl, fun _ _ _ _ => rfl,
       fun _ _ _ => rfl⟩⟩

/-- Claim C2: an operation entry whose name is not one of the defined
operations is skipped with a logged warning: the loop emits a warning event,
the input carried into the following step equals the input before the unknown
entry, the step counter still advances, and the rest of the pipeline runs
unchanged.  Stated for both the audio and the video dispatch tables. -/
theorem C2_unknown_operation_skipped :
    (∀ (env : AudioProcessor.AudioEnv) (params : AudioProcessor.Params)
       (dir task op : String) (rest : List String) (i : Nat) (cur : String),
       op ∉ (["noise_reduction", "normalize_audio", "change_speed",
         "extract_segments"] : List String) →
       runPipeline (AudioProcessor.audioDispatch env params)
           (fun o j => AudioProcessor.get_output_path dir task o j) (op :: rest) i cur =
         ((runPipeline (AudioProcessor.audioDispatch env params)
             (fun o j => AudioProcessor.get_output_path dir task o j) rest (i + 1) cur).1,
          TraceEntry.warnedUnknown op ::
            (runPipeline (AudioProcessor.audioDispatch env params)
              (fun o j => AudioProcessor.get_output_path dir task o j) rest (i + 1) cur).2)) ∧
    (∀ (env : VideoProcessor.VideoEnv) (params : VideoProcessor.Params)
       (dir task op : String) (rest : List String) (i : Nat) (cur : String),
       op ∉ (["extract_audio", "convert_format", "resize_video", "trim_video",
         "add_subtitles"] : List String) →
       runPipeline (VideoProcessor.videoDispatch env params)
           (fun o j => VideoProcessor.get_output_path dir task o j) (op :: rest) i cur =
         ((runPipeline (VideoProcessor.videoDispatch env params)
             (fun o j => VideoProcessor.get_output_path dir task o j) rest (i + 1) cur).1,
          TraceEntry.warnedUnknown op ::
            (runPipeline (VideoProcessor.videoDispatch env params)
              (fun o j => VideoProcessor.get_output_path dir task o j) rest (i + 1) cur).2)) := by
  constructor
  · intro env params dir task op rest i cur h
    exact runPipeline_unknown _ _ op rest i cur (AudioProcessor.audioDispatch_none env params op h)
  · intro env params dir task op rest i cur h
    exact runPipeline_unknown _ _ op rest i cur (VideoProcessor.videoDispatch_none env params op h)

theorem C2_witness :
    (runPipeline (AudioProcessor.audioDispatch audioEnvOk {})
        (fun o j => AudioProcessor.get_output_path "./processed" "t1" o j)
        ("reverse_audio" :: ["normalize_audio"]) 0 "in.wav" =
      ((runPipeline (AudioProcessor.audioDispatch audioEnvOk {})
          (fun o j => AudioProcessor.get_output_path "./processed" "t1" o j)
          ["normalize_audio"] 1 "in.wav").1,
       TraceEntry.warnedUnknown "reverse_audio" ::
         (runPipeline (AudioProcessor.audioDispatch audioEnvOk {})
           (fun o j => AudioProcessor.get_output_path "./processed" "t1" o j)
           ["normalize_audio"] 1 "in.wav").2)) ∧
    (runPipeline (VideoProcessor.videoDispatch videoEnvOk {})
        (fun o j => VideoProcessor.get_output_path "./processed" "t2" o j)
        ("sharpen_video" :: ["trim_video"]) 0 "in.mp4" =
      ((runPipeline (VideoProcessor.videoDispatch videoEnvOk {})
          (fun o j => VideoProcessor.get_output_path "./processed" "t2" o j)
          ["trim_video"] 1 "in.mp4").1,
       TraceEntry.warnedUnknown "sharpen_video" ::
         (runPipeline (VideoProcessor.videoDispatch videoEnvOk {})
           (fun o j => VideoProcessor.get_output_path "./processed" "t2" o j)
           ["trim_video"] 1 "in.mp4").2)) :=
  ⟨C2_unknown_operation_skipped.1 audioEnvOk {} "./processed" "t1" "reverse_audio"
      ["normalize_audio"] 0 "in.wav" (by decide),
   C2_unknown_operation_skipped.2 videoEnvOk {} "./processed" "t2" "sharpen_video"
      ["trim_video"] 0 "in.mp4" (by decide)⟩

/-- Claim C4: if the operation at some step fails (raises, with any fallback
already exhausted inside the operation), the remaining steps are never run —
the result does not depend on the suffix and the trace ends with the failing
invocation — and the executor returns the failed payload carrying the
originating exception's message; in particular it never returns a completed
result after such a failure.  Stated for both processors. -/
theorem C4_step_failure_aborts_pipeline :
    (∀ (env : AudioProcessor.AudioEnv) (dir input task : String)
       (params : AudioProcessor.Params) (pre post : List String) (op cur : String)
       (t : List TraceEntry)
       (f : String → String → Except PyExc String × List ToolCall) (e : PyExc),
       env.existsFile input = true →
       runPipeline (AudioProcessor.audioDispatch env params)
           (fun o j => AudioProcessor.get_output_path dir task o j) pre 0 input = (.ok cur, t) →
       AudioProcessor.audioDispatch env params op = some f →
       (f cur (AudioProcessor.get_output_path dir task op pre.length)).1 = .error e →
       AudioProcessor.process_audio env dir input task (pre ++ op :: post) params =
         (ProcessResult.failed task e.msg,
          t ++ [TraceEntry.invoked op pre.length cur
            (AudioProcessor.get_output_path dir task op pre.length) (.error e)])) ∧
    (∀ (env : VideoProcessor.VideoEnv) (dir input task : String)
       (params : VideoProcessor.Params) (pre post : List String) (op cur : String)
       (t : List TraceEntry)
       (f : String → String → Except PyExc String × List ToolCall) (e : PyExc),
       env.existsFile input = true →
       runPipeline (VideoProcessor.videoDispatch env params)
           (fun o j => VideoProcessor.get_output_path dir task o j) pre 0 input = (.ok cur, t) →
       VideoProcessor.videoDispatch env params op = some f →
       (f cur (VideoProcessor.get_output_path dir task op pre.length)).1 = .error e →
       VideoProcessor.process_video env dir input task (pre ++ op :: post) params =
         (ProcessResult.failed task e.msg,
          t ++ [TraceEntry.invoked op pre.length cur
            (VideoProcessor.get_output_path dir task op pre.length) (.error e)])) := by
  constructor
  · intro env dir input task params pre post op cur t f e hex hpre hop hfail
    have happ := runPipeline_append (AudioProcessor.audioDispatch env params)
      (fun o j => AudioProcessor.get_output_path dir task o j) pre (op :: post) 0 input cur t hpre
    have hstep := runPipeline_cons_error (AudioProcessor.audioDispatch env params)
      (fun o j => AudioProcessor.get_output_path dir task o j) op f post (0 + pre.length) cur e hop
      (by simpa using hfail)
    simp only [AudioProcessor.process_audio, hex, if_true]
    rw [happ, hstep]
    simp
  · intro env dir input task params pre post op cur t f e hex hpre hop hfail
    have happ := runPipeline_append (VideoProcessor.videoDispatch env params)
      (fun o j => VideoProcessor.get_output_path dir task o j) pre (op :: post) 0 input cur t hpre
    have hstep := runPipeline_cons_error (VideoProcessor.videoDispatch env params)
      (fun o j => VideoProcessor.get_output_path dir task o j) op f post (0 + pre.length) cur e hop
      (by simpa using hfail)
    simp only [VideoProcessor.process_video, hex, if_true]
    rw [happ, hstep]
    simp

theorem C4_witness :
    (AudioProcessor.process_audio audioEnvNormFail "./processed" "in.wav" "t1"
        ([] ++ "normalize_audio" :: ["change_speed"]) {} =
      (ProcessResult.failed "t1" "volume failed",
       [] ++ [TraceEntry.invoked "normalize_audio" 0 "in.wav"
         (AudioProcessor.get_output_path "./processed" "t1" "normalize_audio" 0)
         (.error (.exc "volume failed"))])) ∧
    (VideoProcessor.process_video videoEnvScaleFail "./processed" "in.mp4" "t2"
        ([] ++ "resize_video" :: ["trim_video"]) {} =
      (ProcessResult.failed "t2" "scale failed",
       [] ++ [TraceEntry.invoked "resize_video" 0 "in.mp4"
         (VideoProcessor.get_output_path "./processed" "t2" "resize_video" 0)
         (.error (.exc "scale failed"))])) :=
  ⟨C4_step_failure_aborts_pipeline.1 audioEnvNormFail "./processed" "in.wav" "t1" {}
      [] ["change_speed"] "normalize_audio" "in.wav" []
      (AudioProcessor.normalize_audio audioEnvNormFail {}) (.exc "volume failed")
      rfl rfl rfl rfl,
   C4_step_failure_aborts_pipeline.2 videoEnvScaleFail "./processed" "in.mp4" "t2" {}
      [] ["trim_video"] "resize_video" "in.mp4" []
      (VideoProcessor.resize_video videoEnvScaleFail {}) (.exc "scale failed")
      rfl rfl rfl rfl⟩

/-- Claim C10: running either pipeline executor with an empty operations list
on an existing input returns a completed result whose output path is exactly
the input path: the empty pipeline is the identity on the input file and
performs no transformation step (the trace is empty; only the final metadata
probe happens). -/
theorem C10_empty_pipeline_is_identity :
    (∀ (env : AudioProcessor.AudioEnv) (dir input task : String)
       (params : AudioProcessor.Params),
       env.existsFile input = true →
       AudioProcessor.process_audio env dir input task [] params =
         (ProcessResult.completed task input [] (AudioProcessor.get_audio_info env input), [])) ∧
    (∀ (env : VideoProcessor.VideoEnv) (dir input task : String)
       (params : VideoProcessor.Params),
       env.existsFile input = true →
       VideoProcessor.process_video env dir input task [] params =
         (ProcessResult.completed task input [] (VideoProcessor.get_file_info env input), [])) := by
  constructor
  · intro env dir input task params hex
    simp [AudioProcessor.process_audio, hex, runPipeline]
  · intro env dir input task params hex
    simp [VideoProcessor.process_video, hex, runPipeline]

theorem C10_witness :
    (AudioProcessor.process_audio audioEnvOk "./processed" "in.wav" "t1" [] {} =
      (ProcessResult.completed "t1" "in.wav" []
        (AudioProcessor.get_audio_info audioEnvOk "in.wav"), [])) ∧
    (VideoProcessor.process_video videoEnvOk "./processed" "in.mp4" "t2" [] {} =
      (ProcessResult.completed "t2" "in.mp4" []
        (VideoProcessor.get_file_info videoEnvOk "in.mp4"), [])) :=
  ⟨C10_empty_pipeline_is_identity.1 audioEnvOk "./processed" "in.wav" "t1" {} rfl,
   C10_empty_pipeline_is_identity.2 videoEnvOk "./processed" "in.mp4" "t2" {} rfl⟩

/-! ### Fallback semantics of noise reduction and normalization -/

namespace AudioProcessor

theorem fallback_noise_reduction_calls (env : AudioEnv) (input output : String) :
    (fallback_noise_reduction env input output).2 = [ToolCall.ffmpegHighLowPass] := by
  simp only [fallback_noise_reduction]
  split <;> rfl

theorem fallback_normalize_calls (env : AudioEnv) (params : Params) (input output : String) :
    (fallback_normalize env params input output).2 = [ToolCall.ffmpegVolume] := by
  simp only [fallback_normalize]
  split <;> rfl

theorem noise_reduction_body_calls (env : AudioEnv) (params : Params) (input output : String) :
    (noise_reduction_body env params input output).2 = [ToolCall.soxNoiseprof] ∨
    (noise_reduction_body env params input output).2 =
      [ToolCall.soxNoiseprof, ToolCall.soxNoisered] := by
  simp only [noise_reduction_body]
  split
  · exact .inl rfl
  · split <;> exact .inr rfl

/-- On a `CalledProcessError` from the SoX body (the primary tool invocation
returning a nonzero status), `_noise_reduction` delegates to the fallback,
appending the fallback's tool calls after the primary's. -/
theorem noise_reduction_cpe {env : AudioEnv} {params : Params} {input output : String}
    {m : String}
    (hcpe : (noise_reduction_body env params input output).1 = .error (.calledProcessError m)) :
    noise_reduction env params input output =
      ((fallback_noise_reduction env input output).1,
       (noise_reduction_body env params input output).2 ++
         (fallback_noise_reduction env input output).2) := by
  rcases hb : noise_reduction_body env params input output with ⟨rb, cb⟩
  rw [hb] at hcpe
  simp only at hcpe
  subst hcpe
  simp [noise_reduction, hb]

/-- On any exception from the loudnorm primary, `_normalize_audio` delegates to
the volume fallback, recording the primary invocation before it. -/
theorem normalize_audio_primary_fail {env : AudioEnv} {params : Params} {input output : String}
    {e1 : PyExc} (h : env.ffmpegLoudnorm input output = .error e1) :
    normalize_audio env params input output =
      ((fallback_normalize env params input output).1,
       ToolCall.ffmpegLoudnorm :: (fallback_normalize env params input output).2) := by
  simp [normalize_audio, h]

end AudioProcessor

/-- An audio environment whose SoX noise-profile step exits nonzero
(`CalledProcessError`); everything else succeeds. -/
def audioEnvSoxCPE : AudioProcessor.AudioEnv :=
  { audioEnvOk with soxNoiseprof := fun _ _ => .error (.calledProcessError "sox exited 1") }

/-- Like `audioEnvSoxCPE` but the FFmpeg high/low-pass fallback also fails. -/
def audioEnvNoiseBothFail : AudioProcessor.AudioEnv :=
  { audioEnvSoxCPE with ffmpegHighLowPass := fun _ _ => .error (.exc "highpass failed") }

/-- An audio environment whose loudnorm primary fails but whose volume fallback
succeeds. -/
def audioEnvLoudnormFail : AudioProcessor.AudioEnv :=
  { audioEnvOk with ffmpegLoudnorm := fun _ _ => .error (.exc "loudnorm failed") }

/-- Claim C3: for `noise_reduction`, a primary tool invocation failure (the
SoX subprocess exiting nonzero, a `CalledProcessError`) triggers the FFmpeg
frequency-filter fallback exactly once, and the step's result is the
fallback's result; for `normalize_audio`, any primary (loudnorm) failure
triggers the fixed volume-gain fallback exactly once; in either case, if the
fallback also fails, the step fails with the fallback's exception and a job
consisting of that step reports failed. -/
theorem C3_fallbacks_attempted_exactly_once :
    (∀ (env : AudioProcessor.AudioEnv) (params : AudioProcessor.Params)
       (input output m : String),
       (AudioProcessor.noise_reduction_body env params input output).1 =
         .error (.calledProcessError m) →
       (AudioProcessor.noise_reduction env params input output).1 =
         (AudioProcessor.fallback_noise_reduction env input output).1 ∧
       (AudioProcessor.noise_reduction env params input output).2.count
         ToolCall.ffmpegHighLowPass = 1) ∧
    (∀ (env : AudioProcessor.AudioEnv) (params : AudioProcessor.Params)
       (dir task input m : String) (e : PyExc),
       env.existsFile input = true →
       (AudioProcessor.noise_reduction_body env params input
           (AudioProcessor.get_output_path dir task "noise_reduction" 0)).1 =
         .error (.calledProcessError m) →
       env.ffmpegHighLowPass input
           (AudioProcessor.get_output_path dir task "noise_reduction" 0) = .error e →
       (AudioProcessor.noise_reduction env params input
           (AudioProcessor.get_output_path dir task "noise_reduction" 0)).1 = .error e ∧
       AudioProcessor.process_audio env dir input task ["noise_reduction"] params =
         (ProcessResult.failed task e.msg,
          [TraceEntry.invoked "noise_reduction" 0 input
            (AudioProcessor.get_output_path dir task "noise_reduction" 0) (.error e)])) ∧
    (∀ (env : AudioProcessor.AudioEnv) (params : AudioProcessor.Params)
       (input output : String) (e1 : PyExc),
       env.ffmpegLoudnorm input output = .error e1 →
       (AudioProcessor.normalize_audio env params input output).1 =
         (AudioProcessor.fallback_normalize env params input output).1 ∧
       (AudioProcessor.normalize_audio env params input output).2.count
         ToolCall.ffmpegVolume = 1) ∧
    (∀ (env : AudioProcessor.AudioEnv) (params : AudioProcessor.Params)
       (dir task input : String) (e1 e2 : PyExc),
       env.existsFile input = true →
       env.ffmpegLoudnorm input
           (AudioProcessor.get_output_path dir task "normalize_audio" 0) = .error e1 →
       env.ffmpegVolume input (AudioProcessor.get_output_path dir task "normalize_audio" 0)
           (params.volume_level.getD (3 / 2 : Rat)) = .error e2 →
       (AudioProcessor.normalize_audio env params input
           (AudioProcessor.get_output_path dir task "normalize_audio" 0)).1 = .error e2 ∧
       AudioProcessor.process_audio env dir input task ["normalize_audio"] params =
         (ProcessResult.failed task e2.msg,
          [TraceEntry.invoked "normalize_audio" 0 input
            (AudioProcessor.get_output_path dir task "normalize_audio" 0) (.error e2)])) := by
  refine ⟨?_, ?_, ?_, ?_⟩
  · intro env params input output m hcpe
    rw [AudioProcessor.noise_reduction_cpe hcpe]
    refine ⟨rfl, ?_⟩
    show ((AudioProcessor.noise_reduction_body env params input output).2 ++
      (AudioProcessor.fallback_noise_reduction env input output).2).count
        ToolCall.ffmpegHighLowPass = 1
    rw [List.count_append, AudioProcessor.fallback_noise_reduction_calls]
    rcases AudioProcessor.noise_reduction_body_calls env params input output with h | h <;>
      rw [h] <;> decide
  · intro env params dir task input m e hex hcpe hfb
    have hnr := AudioProcessor.noise_reduction_cpe hcpe
    have hfb1 : (AudioProcessor.fallback_noise_reduction env input
        (AudioProcessor.get_output_path dir task "noise_reduction" 0)).1 = .error e := by
      simp [AudioProcessor.fallback_noise_reduction, hfb]
    have hstep : (AudioProcessor.noise_reduction env params input
        (AudioProcessor.get_output_path dir task "noise_reduction" 0)).1 = .error e := by
      rw [hnr]; exact hfb1
    refine ⟨hstep, ?_⟩
    have hfail := runPipeline_cons_error (AudioProcessor.audioDispatch env params)
      (fun o j => AudioProcessor.get_output_path dir task o j) "noise_reduction"
      (AudioProcessor.noise_reduction env params) [] 0 input e (by simp [AudioProcessor.audioDispatch])
      hstep
    simp only [AudioProcessor.process_audio, hex, if_true]
    rw [hfail]
  · intro env params input output e1 h
    rw [AudioProcessor.normalize_audio_primary_fail h]
    refine ⟨rfl, ?_⟩
    show (ToolCall.ffmpegLoudnorm ::
      (AudioProcessor.fallback_normalize env params input output).2).count
        ToolCall.ffmpegVolume = 1
    rw [AudioProcessor.fallback_normalize_calls]
    decide
  · intro env params dir task input e1 e2 hex h1 h2
    have hfb1 : (AudioProcessor.fallback_normalize env params input
        (AudioProcessor.get_output_path dir task "normalize_audio" 0)).1 = .error e2 := by
      simp [AudioProcessor.fallback_normalize, h2]
    have hstep : (AudioProcessor.normalize_audio env params input
        (AudioProcessor.get_output_path dir task "normalize_audio" 0)).1 = .error e2 := by
      rw [AudioProcessor.normalize_audio_primary_fail h1]; exact hfb1
    refine ⟨hstep, ?_⟩
    have hfail := runPipeline_cons_error (AudioProcessor.audioDispatch env params)
      (fun o j => AudioProcessor.get_output_path dir task o j) "normalize_audio"
      (AudioProcessor.normalize_audio env params) [] 0 input e2
      (by simp [AudioProcessor.audioDispatch]) hstep
    simp only [AudioProcessor.process_audio, hex, if_true]
    rw [hfail]

theorem C3_witness :
    ((AudioProcessor.noise_reduction audioEnvSoxCPE {} "in.wav" "out.wav").1 =
        (AudioProcessor.fallback_noise_reduction audioEnvSoxCPE "in.wav" "out.wav").1 ∧
      (AudioProcessor.noise_reduction audioEnvSoxCPE {} "in.wav" "out.wav").2.count
        ToolCall.ffmpegHighLowPass = 1) ∧
    (AudioProcessor.process_audio audioEnvNoiseBothFail "./processed" "in.wav" "t1"
        ["noise_reduction"] {} =
      (ProcessResult.failed "t1" "highpass failed",
       [TraceEntry.invoked "noise_reduction" 0 "in.wav"
         (AudioProcessor.get_output_path "./processed" "t1" "noise_reduction" 0)
         (.error (.exc "highpass failed"))])) ∧
    ((AudioProcessor.normalize_audio audioEnvLoudnormFail {} "in.wav" "out.wav").1 =
        (AudioProcessor.fallback_normalize audioEnvLoudnormFail {} "in.wav" "out.wav").1 ∧
      (AudioProcessor.normalize_audio audioEnvLoudnormFail {} "in.wav" "out.wav").2.count
        ToolCall.ffmpegVolume = 1) ∧
    (AudioProcessor.process_audio audioEnvNormFail "./processed" "in.wav" "t1"
        ["normalize_audio"] {} =
      (ProcessResult.failed "t1" "volume failed",
       [TraceEntry.invoked "normalize_audio" 0 "in.wav"
         (AudioProcessor.get_output_path "./processed" "t1" "normalize_audio" 0)
         (.error (.exc "volume failed"))])) :=
  ⟨C3_fallbacks_attempted_exactly_once.1 audioEnvSoxCPE {} "in.wav" "out.wav" "sox exited 1" rfl,
   (C3_fallbacks_attempted_exactly_once.2.1 audioEnvNoiseBothFail {} "./processed" "t1" "in.wav"
      "sox exited 1" (.exc "highpass failed") rfl rfl rfl).2,
   C3_fallbacks_attempted_exactly_once.2.2.1 audioEnvLoudnormFail {} "in.wav" "out.wav"
      (.exc "loudnorm failed") rfl,
   (C3_fallbacks_attempted_exactly_once.2.2.2 audioEnvNormFail {} "./processed" "t1" "in.wav"
      (.exc "loudnorm failed") (.exc "volume failed") rfl rfl rfl).2⟩

/-! ### AI services: speech-to-text and the workflow coordinator -/

namespace AIServices

/-- One transcript segment `{start, end, text}`. -/
structure Seg where
  start : Rat
  «end» : Rat
  text : String
deriving Repr, DecidableEq

/-- The raw Whisper result dictionary: `result["text"]`,
`result.get("language")`, `result.get("segments", [])` (a missing key is the
empty list). -/
structure WhisperRaw where
  text : String
  language : Option String
  segments : List Seg
deriving Repr

/-- The success dictionary returned by `transcribe_audio`. -/
structure Transcription where
  text : String
  language : String
  segments : List Seg
  duration : Rat
deriving Repr, DecidableEq

/-- `transcribe_audio` returns the transcription dictionary or an
`{"error": msg}` dictionary. -/
inductive TranscribeResult where
  | ok (t : Transcription)
  | error (msg : String)
deriving Repr, DecidableEq

/-- Environment of the speech-to-text service: `os.path.exists`, whether
`load_model` succeeds, and the outcome of `self.model.transcribe`. -/
structure SttEnv where
  existsFile : String → Bool
  loadModel : String → Bool
  runWhisper : String → Option String → Except PyExc WhisperRaw

/-- The `options` dictionary passed to Whisper: the language hint is forwarded
only when it is truthy (non-empty) and not `"auto"`. -/
def whisperLangOpt : Option String → Option String
  | none => none
  | some l => if l ≠ "" ∧ l ≠ "auto" then some l else none

/-- Building the success dictionary from a raw Whisper result: texts are
stripped, the language defaults to `"unknown"`, and the duration is the end
timestamp of the last segment, `0` if there are no segments. -/
def mkTranscription (res : WhisperRaw) : Transcription :=
  let segments := res.segments.map fun s =>
    { start := s.start, «end» := s.«end», text := s.text.trim }
  { text := res.text.trim
    language := res.language.getD "unknown"
    segments := segments
    duration :=
      match segments.getLast? with
      | some s => s.«end»
      | none => 0 }

/-- `SpeechToTextService.transcribe_audio`: existence check (a missing file
raises `FileNotFoundError` which the outer handler turns into the error
dictionary), model loading, then Whisper transcription.  The second component
records whether `self.model.transcribe` was actually invoked. -/
def transcribe_audio (env : SttEnv) (audio_path : String) (language : Option String)
    (model_name : String) : TranscribeResult × Bool :=
  if env.existsFile audio_path = false then
    (.error ("Audio file not found: " ++ audio_path), false)
  else if env.loadModel model_name = false then
    (.error "Failed to load Whisper model", false)
  else
    match env.runWhisper audio_path (whisperLangOpt language) with
    | .error e => (.error e.msg, true)
    | .ok res => (.ok (mkTranscription res), true)

/-- Success dictionary of `translate_text`. -/
structure TranslationOk where
  translated_text : String
  source_language : Option String
  target_language : String
  original_text : String
deriving Repr, DecidableEq

inductive TranslateResult where
  | ok (t : TranslationOk)
  | error (msg : String)
deriving Repr, DecidableEq

/-- Success dictionary of `synthesize_speech`. -/
structure SynthesisOk where
  audio_path : String
  provider : String
  language : String
deriving Repr, DecidableEq

inductive SynthResult where
  | ok (s : SynthesisOk)
  | error (msg : String)
deriving Repr, DecidableEq

/-- The three stages of the AI workflow, in the order the coordinator may
invoke them. -/
inductive WStage where
  | transcribe
  | translate
  | synthesize
deriving Repr, DecidableEq

/-- Success dictionary of `process_audio_workflow`. -/
structure WorkflowOk where
  task_id : Option String
  original_text : String
  translated_text : String
  source_language : String
  target_language : String
  output_audio : String
  segments : List Seg
deriving Repr, DecidableEq

inductive WorkflowResult where
  | completed (r : WorkflowOk)
  | error (msg : String)
deriving Repr, DecidableEq

/-- Environment of `AIWorkflowService`: the speech-to-text environment plus
the translation and synthesis collaborators (each returning a success or an
error dictionary). -/
structure AIEnv where
  stt : SttEnv
  translate_text : String → String → TranslateResult
  synthesize_speech : String → String → Option String → SynthResult

/-- `AIWorkflowService.process_audio_workflow`: transcribe, then translate,
then synthesize, returning at the first stage whose result carries an
`"error"` key a wrapped error naming that stage.  The second component is the
trace of stages that were invoked, in order. -/
def process_audio_workflow (env : AIEnv) (audio_path target_language : String)
    (task_id : Option String) : WorkflowResult × List WStage :=
  match (transcribe_audio env.stt audio_path none "base").1 with
  | .error m => (.error ("Transcription failed: " ++ m), [.transcribe])
  | .ok transcription =>
    match env.translate_text transcription.text target_language with
    | .error m => (.error ("Translation failed: " ++ m), [.transcribe, .translate])
    | .ok translation =>
      let output_path := task_id.map fun t => "./processed/" ++ t ++ "_translated_audio.mp3"
      match env.synthesize_speech translation.translated_text target_language output_path with
      | .error m =>
          (.error ("Speech synthesis failed: " ++ m), [.transcribe, .translate, .synthesize])
      | .ok synthesis =>
          (.completed
            { task_id := task_id
              original_text := transcription.text
              translated_text := translation.translated_text
              source_language := transcription.language
              target_language := target_language
              output_audio := synthesis.audio_path
              segments := transcription.segments },
           [.transcribe, .translate, .synthesize])

end AIServices

/-- A speech-to-text environment where the file exists, the model loads,
and Whisper returns a fixed two-segment result. -/
def sttEnvOk : AIServices.SttEnv where
  existsFile := fun _ => true
  loadModel := fun _ => true
  runWhisper := fun _ _ => .ok
    { text := " hello world "
      language := some "en"
      segments := [{ start := 0, «end» := 2, text := " hello " },
                   { start := 2, «end» := (7 : Rat) / 2, text := " world " }] }

/-- A speech-to-text environment where no file exists. -/
def sttEnvNoFile : AIServices.SttEnv :=
  { sttEnvOk with existsFile := fun _ => false }

/-- A speech-to-text environment where Whisper itself raises. -/
def sttEnvWhisperFail : AIServices.SttEnv :=
  { sttEnvOk with runWhisper := fun _ _ => .error (.exc "CUDA out of memory") }

/-- An AI workflow environment whose translation stage reports an error and
whose synthesis stage would succeed. -/
def aiEnvTranslateFail : AIServices.AIEnv where
  stt := sttEnvOk
  translate_text := fun _ _ => .error "Google Translate client not available"
  synthesize_speech := fun _ lang p =>
    .ok { audio_path := p.getD "/tmp/out.mp3", provider := "google", language := lang }

/-- Claim C5: the AI workflow runs its stages strictly in the order
transcribe, translate, synthesize (the invocation trace is always a prefix of
that sequence), aborts at the first stage reporting an error, and wraps the
error with the failing stage's name; in particular a translation-stage error
means the synthesize stage is never invoked. -/
theorem C5_workflow_fail_fast :
    (∀ (env : AIServices.AIEnv) (audio_path target_language : String)
       (task_id : Option String),
       (AIServices.process_audio_workflow env audio_path target_language task_id).2 =
           [AIServices.WStage.transcribe] ∨
       (AIServices.process_audio_workflow env audio_path target_language task_id).2 =
           [AIServices.WStage.transcribe, AIServices.WStage.translate] ∨
       (AIServices.process_audio_workflow env audio_path target_language task_id).2 =
           [AIServices.WStage.transcribe, AIServices.WStage.translate,
            AIServices.WStage.synthesize]) ∧
    (∀ (env : AIServices.AIEnv) (audio_path target_language : String)
       (task_id : Option String) (m : String),
       (AIServices.transcribe_audio env.stt audio_path none "base").1 = .error m →
       AIServices.process_audio_workflow env audio_path target_language task_id =
         (.error ("Transcription failed: " ++ m), [AIServices.WStage.transcribe])) ∧
    (∀ (env : AIServices.AIEnv) (audio_path target_language : String)
       (task_id : Option String) (tr : AIServices.Transcription) (m : String),
       (AIServices.transcribe_audio env.stt audio_path none "base").1 = .ok tr →
       env.translate_text tr.text target_language = .error m →
       AIServices.process_audio_workflow env audio_path target_language task_id =
         (.error ("Translation failed: " ++ m),
          [AIServices.WStage.transcribe, AIServices.WStage.translate]) ∧
       AIServices.WStage.synthesize ∉
         (AIServices.process_audio_workflow env audio_path target_language task_id).2) := by
  refine ⟨?_, ?_, ?_⟩
  · intro env audio_path target_language task_id
    rcases h : (AIServices.transcribe_audio env.stt audio_path none "base").1 with tr | m
    · rcases h2 : env.translate_text tr.text target_language with tl | m
      · rcases h3 : env.synthesize_speech tl.translated_text target_language
            (task_id.map fun t => "./processed/" ++ t ++ "_translated_audio.mp3") with syn | m
        · exact .inr (.inr (by simp [AIServices.process_audio_workflow, h, h2, h3]))
        · exact .inr (.inr (by simp [AIServices.process_audio_workflow, h, h2, h3]))
      · exact .inr (.inl (by simp [AIServices.process_audio_workflow, h, h2]))
    · exact .inl (by simp [AIServices.process_audio_workflow, h])
  · intro env audio_path target_language task_id m h
    simp [AIServices.process_audio_workflow, h]
  · intro env audio_path target_language task_id tr m h1 h2
    refine ⟨by simp [AIServices.process_audio_workflow, h1, h2], ?_⟩
    simp [AIServices.process_audio_workflow, h1, h2]

theorem C5_witness :
    AIServices.process_audio_workflow aiEnvTranslateFail "a.wav" "hi" (some "t9") =
      (.error ("Translation failed: " ++ "Google Translate client not available"),
       [AIServices.WStage.transcribe, AIServices.WStage.translate]) ∧
    AIServices.WStage.synthesize ∉
      (AIServices.process_audio_workflow aiEnvTranslateFail "a.wav" "hi" (some "t9")).2 :=
  C5_workflow_fail_fast.2.2 aiEnvTranslateFail "a.wav" "hi" (some "t9")
    (AIServices.mkTranscription
      { text := " hello world "
        language := some "en"
        segments := [{ start := 0, «end» := 2, text := " hello " },
                     { start := 2, «end» := (7 : Rat) / 2, text := " world " }] })
    "Google Translate client not available" rfl rfl

/-- Claim C8: when transcription succeeds, the returned duration equals the
end timestamp of the last raw segment when the segment list is non-empty, and
`0` when there are no segments. -/
theorem C8_duration_is_last_segment_end :
    ∀ (env : AIServices.SttEnv) (p : String) (lang : Option String) (model : String)
      (res : AIServices.WhisperRaw),
      env.existsFile p = true → env.loadModel model = true →
      env.runWhisper p (AIServices.whisperLangOpt lang) = .ok res →
      AIServices.transcribe_audio env p lang model =
        (.ok (AIServices.mkTranscription res), true) ∧
      (res.segments = [] → (AIServices.mkTranscription res).duration = 0) ∧
      (∀ s, res.segments.getLast? = some s →
        (AIServices.mkTranscription res).duration = s.«end») := by
  intro env p lang model res hex hload hrun
  refine ⟨by simp [AIServices.transcribe_audio, hex, hload, hrun], ?_, ?_⟩
  · intro h
    simp [AIServices.mkTranscription, h]
  · intro s hs
    simp only [AIServices.mkTranscription, List.getLast?_map, hs, Option.map_some']

theorem C8_witness :
    AIServices.transcribe_audio sttEnvOk "a.wav" none "base" =
      (.ok (AIServices.mkTranscription
        { text := " hello world "
          language := some "en"
          segments := [{ start := 0, «end» := 2, text := " hello " },
                       { start := 2, «end» := (7 : Rat) / 2, text := " world " }] }), true) ∧
    (AIServices.mkTranscription
      { text := " hello world "
        language := some "en"
        segments := [{ start := 0, «end» := 2, text := " hello " },
                     { start := 2, «end» := (7 : Rat) / 2, text := " world " }] }).duration =
      (7 : Rat) / 2 :=
  ⟨(C8_duration_is_last_segment_end sttEnvOk "a.wav" none "base" _ rfl rfl rfl).1,
   (C8_duration_is_last_segment_end sttEnvOk "a.wav" none "base" _ rfl rfl rfl).2.2
     { start := 2, «end» := (7 : Rat) / 2, text := " world " } rfl⟩

/-- Claim C9: transcribing a path that does not exist returns the missing-file
error (message `Audio file not found: <path>`) without ever invoking the
Whisper model (second component `false`); an error arising from an actual
transcription failure is returned only after the model was invoked (second
component `true`), so the two error situations are distinct. -/
theorem C9_missing_file_is_distinct_error :
    (∀ (env : AIServices.SttEnv) (p : String) (lang : Option String) (model : String),
       env.existsFile p = false →
       AIServices.transcribe_audio env p lang model =
         (.error ("Audio file not found: " ++ p), false)) ∧
    (∀ (env : AIServices.SttEnv) (p : String) (lang : Option String) (model : String)
       (e : PyExc),
       env.existsFile p = true → env.loadModel model = true →
       env.runWhisper p (AIServices.whisperLangOpt lang) = .error e →
       AIServices.transcribe_audio env p lang model = (.error e.msg, true)) := by
  constructor
  · intro env p lang model h
    simp [AIServices.transcribe_audio, h]
  · intro env p lang model e hex hload hrun
    simp [AIServices.transcribe_audio, hex, hload, hrun]

theorem C9_witness :
    AIServices.transcribe_audio sttEnvNoFile "missing.wav" none "base" =
      (.error ("Audio file not found: " ++ "missing.wav"), false) ∧
    AIServices.transcribe_audio sttEnvWhisperFail "a.wav" none "base" =
      (.error (PyExc.exc "CUDA out of memory").msg, true) :=
  ⟨C9_missing_file_is_distinct_error.1 sttEnvNoFile "missing.wav" none "base" rfl,
   C9_missing_file_is_distinct_error.2 sttEnvWhisperFail "a.wav" none "base"
     (.exc "CUDA out of memory") rfl rfl rfl⟩

/-! ### Storage service -/

/-- A storage operation's return dictionary: the success payload (which always
carries `"success": True`) or the `{"error": msg}` dictionary. -/
inductive SResult (α : Type) where
  | ok (payload : α)
  | error (msg : String)
deriving Repr, DecidableEq

/-- Python `str.strip('"')`: drop every leading and trailing `'"'`. -/
def stripQuoteChars (s : String) : String :=
  String.mk (((s.toList.dropWhile (· = '"')).reverse.dropWhile (· = '"')).reverse)

/-- Model of `os.path.dirname` for the POSIX paths used here (everything
before the final separator). -/
def osPathDirname (p : String) : String :=
  String.intercalate "/" (p.splitOn "/").dropLast

/-- One entry of a `list_files` result.  The R2 backend fills `etag`, the
local backend fills `local_path`. -/
structure FileEntry where
  key : String
  size : Nat
  last_modified : String
  etag : Option String := none
  local_path : Option String := none
deriving Repr, DecidableEq

structure UploadOk where
  remote_key : String
  bucket : String
  size : Nat
  content_type : String
  url : String
deriving Repr, DecidableEq

structure SignOk where
  signed_url : String
  expires_in : Nat
  expires_at : String
deriving Repr, DecidableEq

structure DeleteOk where
  deleted_key : String
deriving Repr, DecidableEq

structure ListOk where
  files : List FileEntry
  count : Nat
deriving Repr, DecidableEq

structure LocalUploadOk where
  remote_key : String
  local_path : String
  size : Nat
  url : String
deriving Repr, DecidableEq

structure LocalSignOk where
  signed_url : String
  expires_in : Nat
  local_path : String
deriving Repr, DecidableEq

/-- An object entry as returned by `list_objects_v2`. -/
structure RawObject where
  key : String
  size : Nat
  last_modified_iso : String
  etag : String
deriving Repr, DecidableEq

namespace CloudflareR2Service

/-- Environment of external effects used by the R2 operations. -/
structure R2OpsEnv where
  existsFile : String → Bool
  guessType : String → Option String
  uploadFileobj : String → String → String → Option (List (String × String)) → Except PyExc Unit
  getsize : String → Except PyExc Nat
  presign : String → String → Nat → Except PyExc String
  nowPlusIso : Nat → String
  deleteObject : String → String → Except PyExc Unit
  listObjectsV2 : String → String → Except PyExc (List RawObject)

/-- The `try` body of `upload_file` (the `if not self.client` and missing-file
checks are ordinary returns of error dictionaries, not exceptions). -/
def upload_fileBody (env : R2OpsEnv) (client : Bool) (bucket : String)
    (local_path remote_key : String) (metadata : Option (List (String × String))) :
    Except PyExc (SResult UploadOk) := do
  if client = false then return .error "R2 client not available"
  if env.existsFile local_path = false then
    return .error ("Local file not found: " ++ local_path)
  let content_type := (env.guessType local_path).getD "application/octet-stream"
  env.uploadFileobj bucket remote_key content_type metadata
  let file_size ← env.getsize local_path
  return .ok { remote_key := remote_key, bucket := bucket, size := file_size,
               content_type := content_type,
               url := "https://" ++ bucket ++ ".r2.dev/" ++ remote_key }

/-- The `except` clauses of `upload_file`: a `ClientError` is reported as
`Upload failed: <str(e)>`, anything else as `str(e)`. -/
def uploadCatch : PyExc → String
  | .clientError m => "Upload failed: " ++ m
  | e => e.msg

def upload_file (env : R2OpsEnv) (client : Bool) (bucket : String)
    (local_path remote_key : String) (metadata : Option (List (String × String))) :
    SResult UploadOk :=
  match upload_fileBody env client bucket local_path remote_key metadata with
  | .ok r => r
  | .error e => .error (uploadCatch e)

def generate_signed_urlBody (env : R2OpsEnv) (client : Bool) (bucket : String)
    (remote_key : String) (expiration : Nat) : Except PyExc (SResult SignOk) := do
  if client = false then return .error "R2 client not available"
  let url ← env.presign bucket remote_key expiration
  return .ok { signed_url := url, expires_in := expiration,
               expires_at := env.nowPlusIso expiration }

def signCatch : PyExc → String
  | .clientError m => "Signed URL generation failed: " ++ m
  | e => e.msg

def generate_signed_url (env : R2OpsEnv) (client : Bool) (bucket : String)
    (remote_key : String) (expiration : Nat) : SResult SignOk :=
  match generate_signed_urlBody env client bucket remote_key expiration with
  | .ok r => r
  | .error e => .error (signCatch e)

def delete_fileBody (env : R2OpsEnv) (client : Bool) (bucket : String)
    (remote_key : String) : Except PyExc (SResult DeleteOk) := do
  if client = false then return .error "R2 client not available"
  env.deleteObject bucket remote_key
  return .ok { deleted_key := remote_key }

def deleteCatch : PyExc → String
  | .clientError m => "Delete failed: " ++ m
  | e => e.msg

def delete_file (env : R2OpsEnv) (client : Bool) (bucket : String)
    (remote_key : String) : SResult DeleteOk :=
  match delete_fileBody env client bucket remote_key with
  | .ok r => r
  | .error e => .error (deleteCatch e)

def list_filesBody (env : R2OpsEnv) (client : Bool) (bucket : String)
    (pfx : String) : Except PyExc (SResult ListOk) := do
  if client = false then return .error "R2 client not available"
  let response ← env.listObjectsV2 bucket pfx
  let files := response.map fun o =>
    ({ key := o.key, size := o.size, last_modified := o.last_modified_iso,
       etag := some (stripQuoteChars o.etag) } : FileEntry)
  return .ok { files := files, count := files.length }

def listCatch : PyExc → String
  | .clientError m => "List failed: " ++ m
  | e => e.msg

def list_files (env : R2OpsEnv) (client : Bool) (bucket : String)
    (pfx : String) : SResult ListOk :=
  match list_filesBody env client bucket pfx with
  | .ok r => r
  | .error e => .error (listCatch e)

end CloudflareR2Service

namespace LocalStorageService

structure FileStat where
  st_size : Nat
  mtime_iso : String
deriving Repr, DecidableEq

/-- Environment of external effects used by the local storage operations.
`walkFiles` is the `os.walk` enumeration as (relative path, full path) pairs;
on the POSIX target `os.sep` is `'/'` so the key's separator replacement is
the identity. -/
structure LocalEnv where
  existsFile : String → Bool
  makedirs : String → Except PyExc Unit
  copy2 : String → String → Except PyExc Unit
  getsize : String → Except PyExc Nat
  removeFile : String → Except PyExc Unit
  walkFiles : String → List (String × String)
  statFile : String → Except PyExc FileStat

def upload_fileBody (env : LocalEnv) (storage_dir local_path remote_key : String)
    (_metadata : Option (List (String × String))) : Except PyExc (SResult LocalUploadOk) := do
  if env.existsFile local_path = false then
    return .error ("Local file not found: " ++ local_path)
  let dest_path := osPathJoin storage_dir remote_key
  let dest_dir := osPathDirname dest_path
  env.makedirs dest_dir
  env.copy2 local_path dest_path
  let file_size ← env.getsize dest_path
  return .ok { remote_key := remote_key, local_path := dest_path, size := file_size,
               url := "/storage/" ++ remote_key }

def upload_file (env : LocalEnv) (storage_dir local_path remote_key : String)
    (metadata : Option (List (String × String))) : SResult LocalUploadOk :=
  match upload_fileBody env storage_dir local_path remote_key metadata with
  | .ok r => r
  | .error e => .error e.msg

def generate_signed_urlBody (env : LocalEnv) (storage_dir remote_key : String)
    (expiration : Nat) : Except PyExc (SResult LocalSignOk) := do
  let file_path := osPathJoin storage_dir remote_key
  if env.existsFile file_path = false then return .error "File not found"
  return .ok { signed_url := "/storage/" ++ remote_key, expires_in := expiration,
               local_path := file_path }

def generate_signed_url (env : LocalEnv) (storage_dir remote_key : String)
    (expiration : Nat) : SResult LocalSignOk :=
  match generate_signed_urlBody env storage_dir remote_key expiration with
  | .ok r => r
  | .error e => .error e.msg

def delete_fileBody (env : LocalEnv) (storage_dir remote_key : String) :
    Except PyExc (SResult DeleteOk) := do
  let file_path := osPathJoin storage_dir remote_key
  if env.existsFile file_path then env.removeFile file_path
  return .ok { deleted_key := remote_key }

def delete_file (env : LocalEnv) (storage_dir remote_key : String) : SResult DeleteOk :=
  match delete_fileBody env storage_dir remote_key with
  | .ok r => r
  | .error e => .error e.msg

/-- The `os.walk` loop of `list_files`: keep entries whose relative path
starts with the prefix, stat-ing each kept file. -/
def collectFiles (env : LocalEnv) (pfx : String) :
    List (String × String) → Except PyExc (List FileEntry)
  | [] => pure []
  | (relative_path, file_path) :: rest => do
      if relative_path.startsWith pfx then
        let st ← env.statFile file_path
        let others ← collectFiles env pfx rest
        pure (({ key := relative_path, size := st.st_size, last_modified := st.mtime_iso,
                 local_path := some file_path } : FileEntry) :: others)
      else
        collectFiles env pfx rest

def list_filesBody (env : LocalEnv) (storage_dir pfx : String) :
    Except PyExc (SResult ListOk) := do
  let files ← collectFiles env pfx (env.walkFiles storage_dir)
  return .ok { files := files, count := files.length }

def list_files (env : LocalEnv) (storage_dir pfx : String) : SResult ListOk :=
  match list_filesBody env storage_dir pfx with
  | .ok r => r
  | .error e => .error e.msg

end LocalStorageService

/-- Truthiness of an optional environment-variable string, as used by
`all([...])`: absent or empty is falsy. -/
def truthy : Option String → Bool
  | none => false
  | some s => decide (s ≠ "")

/-- The process environment read by `CloudflareR2Service._initialize_client`
plus the outcome of the `head_bucket` connectivity probe. -/
structure R2InitEnv where
  cloudflare_account_id : Option String
  cloudflare_r2_access_key_id : Option String
  cloudflare_r2_secret_access_key : Option String
  cloudflare_r2_bucket_name : Option String
  head_bucket : String → Except PyExc Unit

/-- The fields of `CloudflareR2Service` assigned during initialization. -/
structure R2State where
  client : Bool
  bucket_name : Option String
deriving Repr, DecidableEq

/-- `CloudflareR2Service._initialize_client`: if any of the four credentials
is absent or empty, the client is left unset; otherwise the boto3 client is
assigned to `self.client` and then `head_bucket` is called as a connectivity
test.  A probe exception is caught and logged by the `except` clauses, which
do not reset `self.client` — so the client stays assigned either way. -/
def initClient (env : R2InitEnv) : R2State :=
  let account_id := env.cloudflare_account_id
  let access_key := env.cloudflare_r2_access_key_id
  let secret_key := env.cloudflare_r2_secret_access_key
  let bucket_name := env.cloudflare_r2_bucket_name
  if !(truthy account_id && truthy access_key && truthy secret_key && truthy bucket_name) then
    { client := false, bucket_name := bucket_name }
  else
    match env.head_bucket (bucket_name.getD "") with
    | .ok _ => { client := true, bucket_name := bucket_name }
    | .error _ => { client := true, bucket_name := bucket_name }

/-- `CloudflareR2Service.is_available`: `self.client is not None`. -/
def is_available (st : R2State) : Bool := st.client

/-- The backend `StorageManager` routes every operation to. -/
inductive Backend where
  | r2
  | localDisk
deriving Repr, DecidableEq

/-- `StorageManager.__init__`: the primary service is R2 exactly when
`r2_service.is_available()`. -/
def primary_service (env : R2InitEnv) : Backend :=
  if is_available (initClient env) then .r2 else .localDisk

/-- `StorageManager.get_storage_type`. -/
def get_storage_type (env : R2InitEnv) : String :=
  if is_available (initClient env) then "cloudflare_r2" else "local"

/-- A full, non-empty credential set whose `head_bucket` connectivity probe
fails with a `ClientError`. -/
def r2EnvProbeFail : R2InitEnv where
  cloudflare_account_id := some "acct"
  cloudflare_r2_access_key_id := some "ak"
  cloudflare_r2_secret_access_key := some "sk"
  cloudflare_r2_bucket_name := some "bkt"
  head_bucket := fun _ => .error (.clientError "403: head_bucket forbidden")

/-- The same credentials with the secret key absent and a succeeding probe. -/
def r2EnvNoCreds : R2InitEnv :=
  { r2EnvProbeFail with
    cloudflare_r2_secret_access_key := none
    head_bucket := fun _ => .ok () }

/-- The full credential set with a succeeding probe. -/
def r2EnvProbeOk : R2InitEnv :=
  { r2EnvProbeFail with head_bucket := fun _ => .ok () }

/-- Claim C6 (refuting evaluation): with the full credential set present but a
failing `head_bucket` connectivity probe, `_initialize_client` catches the
probe exception after `self.client` has already been assigned and never resets
it, so `get_storage_type()` reports `"cloudflare_r2"` and `StorageManager`
routes every operation to the R2 service — contradicting the claim that a
failed probe selects the local backend.  The two credential-driven halves of
the claim do hold: a missing credential yields `"local"`, and a full
credential set with a succeeding probe yields `"cloudflare_r2"`. -/
theorem C6_probe_failure_still_reports_remote :
    get_storage_type r2EnvProbeFail = "cloudflare_r2" ∧
    primary_service r2EnvProbeFail = .r2 ∧
    get_storage_type r2EnvNoCreds = "local" ∧
    primary_service r2EnvNoCreds = .localDisk ∧
    get_storage_type r2EnvProbeOk = "cloudflare_r2" :=
  ⟨rfl, rfl, rfl, rfl, rfl⟩

/-- An R2 operations environment in which the file exists but the remote calls
fail with `ClientError`s. -/
def r2OpsEnvFail : CloudflareR2Service.R2OpsEnv where
  existsFile := fun _ => true
  guessType := fun _ => some "audio/mpeg"
  uploadFileobj := fun _ _ _ _ => .error (.clientError "AccessDenied")
  getsize := fun _ => .ok 42
  presign := fun _ _ _ => .error (.clientError "SignatureDoesNotMatch")
  nowPlusIso := fun _ => "2026-01-01T00:00:00"
  deleteObject := fun _ _ => .ok ()
  listObjectsV2 := fun _ _ => .ok []

/-- A local storage environment in which everything succeeds. -/
def localEnvOk : LocalStorageService.LocalEnv where
  existsFile := fun _ => true
  makedirs := fun _ => .ok ()
  copy2 := fun _ _ => .ok ()
  getsize := fun _ => .ok 42
  removeFile := fun _ => .ok ()
  walkFiles := fun _ => []
  statFile := fun _ => .ok { st_size := 42, mtime_iso := "2026-01-01T00:00:00" }

/-- Claim C7: every storage operation on both backends returns a structured
result — whatever its `try` body does, the public operation returns either the
body's success/error dictionary or, when the body raises, the `except`
clause's `{"error": ...}` dictionary built from the exception; no exception
escapes the component boundary. -/
theorem C7_storage_ops_return_structured_errors :
    (∀ (env : CloudflareR2Service.R2OpsEnv) (client : Bool) (bucket lp rk : String)
       (md : Option (List (String × String))),
       (∀ e, CloudflareR2Service.upload_fileBody env client bucket lp rk md = .error e →
         CloudflareR2Service.upload_file env client bucket lp rk md =
           .error (CloudflareR2Service.uploadCatch e)) ∧
       (∀ r, CloudflareR2Service.upload_fileBody env client bucket lp rk md = .ok r →
         CloudflareR2Service.upload_file env client bucket lp rk md = r)) ∧
    (∀ (env : CloudflareR2Service.R2OpsEnv) (client : Bool) (bucket rk : String) (exp : Nat),
       (∀ e, CloudflareR2Service.generate_signed_urlBody env client bucket rk exp = .error e →
         CloudflareR2Service.generate_signed_url env client bucket rk exp =
           .error (CloudflareR2Service.signCatch e)) ∧
       (∀ r, CloudflareR2Service.generate_signed_urlBody env client bucket rk exp = .ok r →
         CloudflareR2Service.generate_signed_url env client bucket rk exp = r)) ∧
    (∀ (env : CloudflareR2Service.R2OpsEnv) (client : Bool) (bucket rk : String),
       (∀ e, CloudflareR2Service.delete_fileBody env client bucket rk = .error e →
         CloudflareR2Service.delete_file env client bucket rk =
           .error (CloudflareR2Service.deleteCatch e)) ∧
       (∀ r, CloudflareR2Service.delete_fileBody env client bucket rk = .ok r →
         CloudflareR2Service.delete_file env client bucket rk = r)) ∧
    (∀ (env : CloudflareR2Service.R2OpsEnv) (client : Bool) (bucket pfx : String),
       (∀ e, CloudflareR2Service.list_filesBody env client bucket pfx = .error e →
         CloudflareR2Service.list_files env client bucket pfx =
           .error (CloudflareR2Service.listCatch e)) ∧
       (∀ r, CloudflareR2Service.list_filesBody env client bucket pfx = .ok r →
         CloudflareR2Service.list_files env client bucket pfx = r)) ∧
    (∀ (env : LocalStorageService.LocalEnv) (dir lp rk : String)
       (md : Option (List (String × String))),
       (∀ e, LocalStorageService.upload_fileBody env dir lp rk md = .error e →
         LocalStorageService.upload_file env dir lp rk md = .error e.msg) ∧
       (∀ r, LocalStorageService.upload_fileBody env dir lp rk md = .ok r →
         LocalStorageService.upload_file env dir lp rk md = r)) ∧
    (∀ (env : LocalStorageService.LocalEnv) (dir rk : String) (exp : Nat),
       (∀ e, LocalStorageService.generate_signed_urlBody env dir rk exp = .error e →
         LocalStorageService.generate_signed_url env dir rk exp = .error e.msg) ∧
       (∀ r, LocalStorageService.generate_signed_urlBody env dir rk exp = .ok r →
         LocalStorageService.generate_signed_url env dir rk exp = r)) ∧
    (∀ (env : LocalStorageService.LocalEnv) (dir rk : String),
       (∀ e, LocalStorageService.delete_fileBody env dir rk = .error e →
         LocalStorageService.delete_file env dir rk = .error e.msg) ∧
       (∀ r, LocalStorageService.delete_fileBody env dir rk = .ok r →
         LocalStorageService.delete_file env dir rk = r)) ∧
    (∀ (env : LocalStorageService.LocalEnv) (dir pfx : String),
       (∀ e, LocalStorageService.list_filesBody env dir pfx = .error e →
         LocalStorageService.list_files env dir pfx = .error e.msg) ∧
       (∀ r, LocalStorageService.list_filesBody env dir pfx = .ok r →
         LocalStorageService.list_files env dir pfx = r)) := by
  refine ⟨?_, ?_, ?_, ?_, ?_, ?_, ?_, ?_⟩
  · intro env client bucket lp rk md
    exact ⟨fun e h => by simp [CloudflareR2Service.upload_file, h],
           fun r h => by simp [CloudflareR2Service.upload_file, h]⟩
  · intro env client bucket rk exp
    exact ⟨fun e h => by simp [CloudflareR2Service.generate_signed_url, h],
           fun r h => by simp [CloudflareR2Service.generate_signed_url, h]⟩
  · intro env client bucket rk
    exact ⟨fun e h => by simp [CloudflareR2Service.delete_file, h],
           fun r h => by simp [CloudflareR2Service.delete_file, h]⟩
  · intro env client bucket pfx
    exact ⟨fun e h => by simp [CloudflareR2Service.list_files, h],
           fun r h => by simp [CloudflareR2Service.list_files, h]⟩
  · intro env dir lp rk md
    exact ⟨fun e h => by simp [LocalStorageService.upload_file, h],
           fun r h => by simp [LocalStorageService.upload_file, h]⟩
  · intro env dir rk exp
    exact ⟨fun e h => by simp [LocalStorageService.generate_signed_url, h],
           fun r h => by simp [LocalStorageService.generate_signed_url, h]⟩
  · intro env dir rk
    exact ⟨fun e h => by simp [LocalStorageService.delete_file, h],
           fun r h => by simp [LocalStorageService.delete_file, h]⟩
  · intro env dir pfx
    exact ⟨fun e h => by simp [LocalStorageService.list_files, h],
           fun r h => by simp [LocalStorageService.list_files, h]⟩

theorem C7_witness :
    CloudflareR2Service.upload_file r2OpsEnvFail true "bkt" "a.mp3" "k" none =
      .error ("Upload failed: " ++ "AccessDenied") ∧
    CloudflareR2Service.generate_signed_url r2OpsEnvFail false "bkt" "k" 3600 =
      .error "R2 client not available" ∧
    LocalStorageService.upload_file localEnvOk "./storage" "a.mp3" "k" none =
      .ok { remote_key := "k", local_path := osPathJoin "./storage" "k", size := 42,
            url := "/storage/" ++ "k" } :=
  ⟨(C7_storage_ops_return_structured_errors.1 r2OpsEnvFail true "bkt" "a.mp3" "k" none).1
      (.clientError "AccessDenied") rfl,
   (C7_storage_ops_return_structured_errors.2.1 r2OpsEnvFail false "bkt" "k" 3600).2
      (.error "R2 client not available") rfl,
   (C7_storage_ops_return_structured_errors.2.2.2.2.1 localEnvOk "./storage" "a.mp3" "k" none).2
      (.ok { remote_key := "k", local_path := osPathJoin "./storage" "k", size := 42,
             url := "/storage/" ++ "k" }) rfl⟩

end Media
